import Mathlib

/-!
# go-proxy: forwarding service, error classification and response shaping

A shallow embedding of `src/goproxy` (errors.go, models.go, service.go,
middleware.go, logging.go, endpoint.go, transport.go).

Modelling conventions.

* A Go `string` is a Lean `String`; `strings.HasSuffix` compares the character
  lists (for well-formed UTF-8 text a byte suffix and a character suffix agree).
* A Go `int` is an `Int`; `strconv.Atoi` enforces the 64-bit range.
* A Go `error` value that may be `nil` is an `Option GoError`.
* `*json.RawMessage` is an `Option RawMessage`, a `RawMessage` being the bytes.
* Outbound traffic is recorded: every function that can reach the upstream
  returns the list of requests it executed on the upstream client.
* A Go function that may panic returns an `Outcome`.
-/

namespace GoProxy

/-! ## Standard library: strings, strconv, net/http status texts -/

/-- Go `strings.HasSuffix(s, suffix)`. -/
def HasSuffix (s suffix : String) : Bool :=
  suffix.data.isSuffixOf s.data

/-- Go `strings.Contains(s, substr)`, used only to state properties. -/
def Contains (s substr : String) : Bool :=
  s.data.tails.any (fun t => substr.data.isPrefixOf t)

/-- Value of a decimal digit character, or `none`. -/
def digitValue (c : Char) : Option Nat :=
  if 48 ≤ c.toNat ∧ c.toNat ≤ 57 then some (c.toNat - 48) else none

/-- Base-10 value of a list of digit characters read left to right, starting
from the accumulator `acc`; `none` as soon as a non-digit is met. -/
def parseDigitsFrom : Nat → List Char → Option Nat
  | acc, [] => some acc
  | acc, c :: cs =>
    match digitValue c with
    | some d => parseDigitsFrom (acc * 10 + d) cs
    | none => none

/-- A non-empty run of decimal digits, as a number. -/
def parseDigits (cs : List Char) : Option Nat :=
  match cs with
  | [] => none
  | _ :: _ => parseDigitsFrom 0 cs

/-- Go `strconv.Atoi` on a 64-bit platform: an optional sign, then one or more
decimal digits, and the value must fit in an `int`; `none` is a non-nil error. -/
def Atoi (s : String) : Option Int :=
  let (negative, digits) :=
    match s.data with
    | '-' :: rest => (true, rest)
    | '+' :: rest => (false, rest)
    | cs => (false, cs)
  match parseDigits digits with
  | none => none
  | some n =>
    let v : Int := if negative then -(n : Int) else (n : Int)
    if -(2 ^ 63 : Int) ≤ v ∧ v < (2 ^ 63 : Int) then some v else none

/-- Go `strconv.Itoa`. -/
def Itoa (n : Int) : String :=
  toString n

/-- The status codes `net/http` knows, with their texts (`http.StatusText`). -/
def statusTextTable : List (Int × String) :=
  [ (100, "Continue"), (101, "Switching Protocols"), (102, "Processing"),
    (103, "Early Hints"),
    (200, "OK"), (201, "Created"), (202, "Accepted"),
    (203, "Non-Authoritative Information"), (204, "No Content"),
    (205, "Reset Content"), (206, "Partial Content"), (207, "Multi-Status"),
    (208, "Already Reported"), (226, "IM Used"),
    (300, "Multiple Choices"), (301, "Moved Permanently"), (302, "Found"),
    (303, "See Other"), (304, "Not Modified"), (305, "Use Proxy"),
    (307, "Temporary Redirect"), (308, "Permanent Redirect"),
    (400, "Bad Request"), (401, "Unauthorized"), (402, "Payment Required"),
    (403, "Forbidden"), (404, "Not Found"), (405, "Method Not Allowed"),
    (406, "Not Acceptable"), (407, "Proxy Authentication Required"),
    (408, "Request Timeout"), (409, "Conflict"), (410, "Gone"),
    (411, "Length Required"), (412, "Precondition Failed"),
    (413, "Request Entity Too Large"), (414, "Request URI Too Long"),
    (415, "Unsupported Media Type"), (416, "Requested Range Not Satisfiable"),
    (417, "Expectation Failed"), (418, "I'm a teapot"),
    (421, "Misdirected Request"), (422, "Unprocessable Entity"), (423, "Locked"),
    (424, "Failed Dependency"), (425, "Too Early"), (426, "Upgrade Required"),
    (428, "Precondition Required"), (429, "Too Many Requests"),
    (431, "Request Header Fields Too Large"),
    (451, "Unavailable For Legal Reasons"),
    (500, "Internal Server Error"), (501, "Not Implemented"), (502, "Bad Gateway"),
    (503, "Service Unavailable"), (504, "Gateway Timeout"),
    (505, "HTTP Version Not Supported"), (506, "Variant Also Negotiates"),
    (507, "Insufficient Storage"), (508, "Loop Detected"), (510, "Not Extended"),
    (511, "Network Authentication Required") ]

/-- Go `http.StatusText`: the text of a known code, the empty string otherwise. -/
def StatusText (code : Int) : String :=
  (statusTextTable.lookup code).getD ""

def StatusOK : Int := 200
def StatusBadRequest : Int := 400
def StatusUnsupportedMediaType : Int := 415
def StatusInternalServerError : Int := 500
def StatusBadGateway : Int := 502
def StatusServiceUnavailable : Int := 503
def StatusGatewayTimeout : Int := 504

/-! ## errors.go -/

/-- The package-level error variables of errors.go. Each is created once by
`errors.New`, so a sentinel is equal only to itself. -/
inductive Sentinel
  | ErrInternalServerError
  | ErrInvalidContentType
  | ErrMissingTargetURL
  | ErrJSONUnMarshall
  | ErrEmptyRequestBody
  | ErrReadingResponseBody
  | ErrMalformedRequest
  | ErrRequestTimeout
  | ErrFailedCreatingNewRequest
  | ErrTypeAssertion
  | ErrUpstreamHealthCheckFailed
  | ErrBadUpstreamURL
  | ErrCertLoadFailed
  deriving DecidableEq, Repr

/-- The text each sentinel was created with. -/
def Sentinel.text : Sentinel → String
  | .ErrInternalServerError => "internal server error"
  | .ErrInvalidContentType => "invalid content type"
  | .ErrMissingTargetURL => "missing target URL in request body"
  | .ErrJSONUnMarshall => "failed to parse json"
  | .ErrEmptyRequestBody => "empty request body"
  | .ErrReadingResponseBody => "empty response body"
  | .ErrMalformedRequest => "request not formed correctly"
  | .ErrRequestTimeout => "request timeout"
  | .ErrFailedCreatingNewRequest => "failed creating new request"
  | .ErrTypeAssertion => "failed to type assert"
  | .ErrUpstreamHealthCheckFailed => "upstream health check failed"
  | .ErrBadUpstreamURL => "upstream host not found"
  | .ErrCertLoadFailed => "failed to load certificate"

/-- A non-nil Go `error` value.

* `sentinel s`: one of the package variables, compared by identity;
* `new text`: any other error whose dynamic type does not implement
  `net.Error` (a fresh `errors.New`, a `fmt.Errorf`, ...);
* `net text timeout`: a value whose dynamic type implements `net.Error`
  (what `http.Client.Do` returns is a `*url.Error`, which does), with the
  result of its `Timeout()` method;
* `wrap cause message`: `errors.Wrap(cause, message)` of github.com/pkg/errors
  for a non-nil cause. -/
inductive GoError
  | sentinel (s : Sentinel)
  | new (text : String)
  | net (text : String) (timeout : Bool)
  | wrap (cause : GoError) (message : String)
  deriving DecidableEq, Repr

/-- The `Error()` method. -/
def GoError.Error : GoError → String
  | .sentinel s => s.text
  | .new text => text
  | .net text _ => text
  | .wrap cause message => message ++ ": " ++ cause.Error

/-- Whether the dynamic type of the error implements `net.Error`. -/
def GoError.isNetError : GoError → Bool
  | .net _ _ => true
  | _ => false

/-- The method `Timeout()` of an error implementing `net.Error`. -/
def GoError.Timeout : GoError → Bool
  | .net _ timeout => timeout
  | _ => false

def ErrInternalServerError : GoError := .sentinel .ErrInternalServerError
def ErrInvalidContentType : GoError := .sentinel .ErrInvalidContentType
def ErrMissingTargetURL : GoError := .sentinel .ErrMissingTargetURL
def ErrJSONUnMarshall : GoError := .sentinel .ErrJSONUnMarshall
def ErrEmptyRequestBody : GoError := .sentinel .ErrEmptyRequestBody
def ErrReadingResponseBody : GoError := .sentinel .ErrReadingResponseBody
def ErrMalformedRequest : GoError := .sentinel .ErrMalformedRequest
def ErrRequestTimeout : GoError := .sentinel .ErrRequestTimeout
def ErrFailedCreatingNewRequest : GoError := .sentinel .ErrFailedCreatingNewRequest
def ErrTypeAssertion : GoError := .sentinel .ErrTypeAssertion
def ErrUpstreamHealthCheckFailed : GoError := .sentinel .ErrUpstreamHealthCheckFailed
def ErrBadUpstreamURL : GoError := .sentinel .ErrBadUpstreamURL
def ErrCertLoadFailed : GoError := .sentinel .ErrCertLoadFailed

/-- The integer placed under "error" before the real value replaces it. -/
def ErrUnknown : Int := 3999

/-- pkg/errors `errors.Wrap(err, message)`: nil for a nil `err`. -/
def Wrap (err : Option GoError) (message : String) : Option GoError :=
  match err with
  | none => none
  | some cause => some (.wrap cause message)

/-! ## service.go: the error classifier -/

/-- The struct `Errorify`. Its zero value is `Errorify{}`. -/
structure Errorify where
  Status : Int := 0
  Err : Option GoError := none
  Message : String := ""
  deriving DecidableEq, Repr

/-- `classifyRequestError` of service.go. The type switch has the single case
`net.Error`; a nil error or an error of another dynamic type keeps the
defaults set before the switch. -/
def classifyRequestError (err : Option GoError) : Errorify :=
  let errStruct : Errorify := { Status := StatusInternalServerError, Err := err }
  match err with
  | some (.net text timeout) =>
    if timeout then
      { errStruct with Status := StatusGatewayTimeout, Message := "Request timeout" }
    else if HasSuffix text "no such host" then
      { errStruct with Status := StatusBadRequest, Message := ErrBadUpstreamURL.Error }
    else if HasSuffix text "connection refused" then
      { errStruct with Status := StatusBadGateway, Message := "Connection Refused" }
    else errStruct
  | _ => errStruct

/-! ## encoding/json: validity and compaction of raw messages

`json.Marshal` of a `json.RawMessage` runs the scanner of encoding/json over
the bytes (function `compact`): the bytes must be one well-formed JSON value,
and insignificant white space is dropped. The scanner is a state machine with
a stack of open objects and arrays. -/

/-- The bytes of a `json.RawMessage` (a non-nil slice). -/
abbrev RawMessage := String

/-- What the innermost open composite value expects next. -/
inductive ParseState
  | parseObjectKey
  | parseObjectValue
  | parseArrayValue
  deriving DecidableEq, Repr

/-- The step functions of the scanner. -/
inductive Step
  | stateBeginValueOrEmpty | stateBeginValue | stateBeginStringOrEmpty
  | stateBeginString | stateEndValue | stateEndTop
  | stateInString | stateInStringEsc | stateInStringEscU | stateInStringEscU1
  | stateInStringEscU12 | stateInStringEscU123
  | stateNeg | state1 | state0 | stateDot | stateDot0 | stateE | stateESign | stateE0
  | stateT | stateTr | stateTru | stateF | stateFa | stateFal | stateFals
  | stateN | stateNu | stateNul
  deriving DecidableEq, Repr

/-- The scanner: current step function, stack of parse states (innermost
first) and whether a complete top-level value has been seen. -/
structure Scanner where
  step : Step
  parseState : List ParseState
  endTop : Bool
  deriving DecidableEq, Repr

/-- Nesting limit of the scanner. -/
def maxNestingDepth : Nat := 10000

def isSpace (c : Char) : Bool :=
  c = ' ' || c = '\t' || c = '\r' || c = '\n'

def isDigit19 (c : Char) : Bool :=
  49 ≤ c.toNat && c.toNat ≤ 57

def isDigit09 (c : Char) : Bool :=
  48 ≤ c.toNat && c.toNat ≤ 57

def isHex (c : Char) : Bool :=
  isDigit09 c || (97 ≤ c.toNat && c.toNat ≤ 102) || (65 ≤ c.toNat && c.toNat ≤ 70)

/-- The double quote character. -/
def quoteChar : Char := Char.ofNat 34

/-- The backslash character. -/
def backslashChar : Char := Char.ofNat 92

/-- Result of one scanner step: `none` is `scanError`; otherwise the new
scanner and whether the returned code is `scanSkipSpace` or `scanEnd` (the
codes for which `compact` drops the byte). A byte after the top-level value
that is not white space is reported as an error at once. -/
abbrev StepResult := Option (Scanner × Bool)

def continueWith (s : Scanner) (next : Step) : StepResult :=
  some ({ s with step := next }, false)

def pushParseState (s : Scanner) (newParseState : ParseState) (next : Step) : StepResult :=
  if s.parseState.length + 1 ≤ maxNestingDepth then
    some ({ s with parseState := newParseState :: s.parseState, step := next }, false)
  else none

def popParseState (s : Scanner) : Scanner :=
  match s.parseState.tail with
  | [] => { s with parseState := [], step := .stateEndTop, endTop := true }
  | rest => { s with parseState := rest, step := .stateEndValue }

def stateEndTop (s : Scanner) (c : Char) : StepResult :=
  if isSpace c then some (s, true) else none

def stateEndValue (s : Scanner) (c : Char) : StepResult :=
  match s.parseState with
  | [] => stateEndTop { s with step := .stateEndTop, endTop := true } c
  | ps :: rest =>
    if isSpace c then some ({ s with step := .stateEndValue }, true)
    else
      match ps with
      | .parseObjectKey =>
        if c = ':' then
          some ({ s with parseState := .parseObjectValue :: rest, step := .stateBeginValue }, false)
        else none
      | .parseObjectValue =>
        if c = ',' then
          some ({ s with parseState := .parseObjectKey :: rest, step := .stateBeginString }, false)
        else if c = '}' then some (popParseState s, false)
        else none
      | .parseArrayValue =>
        if c = ',' then continueWith s .stateBeginValue
        else if c = ']' then some (popParseState s, false)
        else none

def stateBeginString (s : Scanner) (c : Char) : StepResult :=
  if isSpace c then some (s, true)
  else if c = quoteChar then continueWith s .stateInString
  else none

def stateBeginValue (s : Scanner) (c : Char) : StepResult :=
  if isSpace c then some (s, true)
  else if c = '{' then pushParseState s .parseObjectKey .stateBeginStringOrEmpty
  else if c = '[' then pushParseState s .parseArrayValue .stateBeginValueOrEmpty
  else if c = quoteChar then continueWith s .stateInString
  else if c = '-' then continueWith s .stateNeg
  else if c = '0' then continueWith s .state0
  else if c = 't' then continueWith s .stateT
  else if c = 'f' then continueWith s .stateF
  else if c = 'n' then continueWith s .stateN
  else if isDigit19 c then continueWith s .state1
  else none

def state0 (s : Scanner) (c : Char) : StepResult :=
  if c = '.' then continueWith s .stateDot
  else if c = 'e' || c = 'E' then continueWith s .stateE
  else stateEndValue s c

def stateESign (s : Scanner) (c : Char) : StepResult :=
  if isDigit09 c then continueWith s .stateE0 else none

def expect (s : Scanner) (c wanted : Char) (next : Step) : StepResult :=
  if c = wanted then continueWith s next else none

/-- One step of the scanner on the byte `c`. -/
def Scanner.next (s : Scanner) (c : Char) : StepResult :=
  match s.step with
  | .stateBeginValueOrEmpty =>
    if isSpace c then some (s, true)
    else if c = ']' then stateEndValue s c
    else stateBeginValue s c
  | .stateBeginValue => stateBeginValue s c
  | .stateBeginStringOrEmpty =>
    if isSpace c then some (s, true)
    else if c = '}' then
      stateEndValue { s with parseState := .parseObjectValue :: s.parseState.tail } c
    else stateBeginString s c
  | .stateBeginString => stateBeginString s c
  | .stateEndValue => stateEndValue s c
  | .stateEndTop => stateEndTop s c
  | .stateInString =>
    if c = quoteChar then continueWith s .stateEndValue
    else if c = backslashChar then continueWith s .stateInStringEsc
    else if c.toNat < 32 then none
    else some (s, false)
  | .stateInStringEsc =>
    if c = 'b' || c = 'f' || c = 'n' || c = 'r' || c = 't' || c = backslashChar
        || c = '/' || c = quoteChar then continueWith s .stateInString
    else if c = 'u' then continueWith s .stateInStringEscU
    else none
  | .stateInStringEscU => if isHex c then continueWith s .stateInStringEscU1 else none
  | .stateInStringEscU1 => if isHex c then continueWith s .stateInStringEscU12 else none
  | .stateInStringEscU12 => if isHex c then continueWith s .stateInStringEscU123 else none
  | .stateInStringEscU123 => if isHex c then continueWith s .stateInString else none
  | .stateNeg =>
    if c = '0' then continueWith s .state0
    else if isDigit19 c then continueWith s .state1
    else none
  | .state1 => if isDigit09 c then continueWith s .state1 else state0 s c
  | .state0 => state0 s c
  | .stateDot => if isDigit09 c then continueWith s .stateDot0 else none
  | .stateDot0 =>
    if isDigit09 c then some (s, false)
    else if c = 'e' || c = 'E' then continueWith s .stateE
    else stateEndValue s c
  | .stateE =>
    if c = '+' || c = '-' then continueWith s .stateESign else stateESign s c
  | .stateESign => stateESign s c
  | .stateE0 => if isDigit09 c then some (s, false) else stateEndValue s c
  | .stateT => expect s c 'r' .stateTr
  | .stateTr => expect s c 'u' .stateTru
  | .stateTru => expect s c 'e' .stateEndValue
  | .stateF => expect s c 'a' .stateFa
  | .stateFa => expect s c 'l' .stateFal
  | .stateFal => expect s c 's' .stateFals
  | .stateFals => expect s c 'e' .stateEndValue
  | .stateN => expect s c 'u' .stateNu
  | .stateNu => expect s c 'l' .stateNul
  | .stateNul => expect s c 'l' .stateEndValue

/-- The scanner after `reset`. -/
def Scanner.reset : Scanner :=
  { step := .stateBeginValue, parseState := [], endTop := false }

/-- The method `eof`: true when the input seen so far is a complete value. -/
def Scanner.eof (s : Scanner) : Bool :=
  if s.endTop then true
  else
    match s.next ' ' with
    | some (s1, _) => s1.endTop
    | none => false

/-- What `compact` writes for a byte it keeps, with HTML escaping on. -/
def compactByte (c : Char) : List Char :=
  if c = '<' then "\\u003c".data
  else if c = '>' then "\\u003e".data
  else if c = '&' then "\\u0026".data
  else if c.toNat = 8232 then "\\u2028".data
  else if c.toNat = 8233 then "\\u2029".data
  else [c]

/-- The loop of `compact`: the kept bytes in reverse order are accumulated in
`out`; `none` when the scanner reports an error or the input ends early. -/
def compactLoop : Scanner → List Char → List Char → Option (List Char)
  | s, out, [] => if s.eof then some out.reverse else none
  | s, out, c :: cs =>
    match s.next c with
    | none => none
    | some (s1, drop) => compactLoop s1 (if drop then out else (compactByte c).reverse ++ out) cs

/-- The function `compact` of encoding/json with escaping on, as `json.Marshal`
applies it to the output of a marshaler. -/
def compact (src : String) : Option String :=
  (compactLoop Scanner.reset [] src.data).map String.mk

/-- `json.Marshal` of a `*json.RawMessage`: `null` for a nil pointer, the
compacted bytes for well-formed JSON, an error (`none`) otherwise. -/
def jsonMarshalRaw (m : Option RawMessage) : Option String :=
  match m with
  | none => some "null"
  | some raw => compact raw

/-! ## models.go -/

structure Body where
  TargetURL : String := ""
  Task : Option RawMessage := none
  deriving DecidableEq, Repr

structure Headers where
  Authorization : String := ""
  RequestID : String := ""
  ContentType : String := ""
  XForwardedFor : String := ""
  deriving DecidableEq, Repr

structure QueryString where
  IsBeta : Bool := false
  deriving DecidableEq, Repr

/-- Request structure for /task: the three embedded structs. -/
structure ReceiveAndForwardRequest extends Headers, QueryString, Body
  deriving DecidableEq, Repr

/-- Response structure for /task. -/
structure ReceiveAndForwardResponse where
  Status : Int := 0
  Message : Option RawMessage := none
  Reason : String := ""
  Error : Int := 0
  ErrorDescription : Option GoError := none
  deriving DecidableEq, Repr

structure HealthCheckResponse where
  Status : String := ""
  deriving DecidableEq, Repr

structure VersionResponse where
  GoproxyVersion : String := ""
  deriving DecidableEq, Repr

/-- A request value of static type `interface{}` as the endpoints receive it. -/
inductive Request
  | receiveAndForward (req : ReceiveAndForwardRequest)
  | healthCheck
  | version
  | other (description : String)
  deriving DecidableEq, Repr

/-- A response value of static type `interface{}` as the endpoints return it;
`nil` is the zero value. No type of the package has an `error()` method, so no
response implements the interface `errorer` of transport.go. -/
inductive Response
  | nil
  | receiveAndForward (resp : ReceiveAndForwardResponse)
  | healthCheck (resp : HealthCheckResponse)
  | version (resp : VersionResponse)
  deriving DecidableEq, Repr

/-! ## transport.go: status codes and response encoding -/

/-- `ValidHTTPStatusCode`: the status text of the number the string spells,
the empty string when it spells none or the number has no status text. -/
def ValidHTTPStatusCode (code : String) : String :=
  match Atoi code with
  | none => ""
  | some codeNumber => StatusText codeNumber

/-- `codeFrom` of transport.go. The switch compares the error with the package
variables by identity; the default case reads the text of the error. -/
def codeFrom (err : GoError) : Int :=
  match err with
  | .sentinel .ErrJSONUnMarshall | .sentinel .ErrMissingTargetURL
  | .sentinel .ErrEmptyRequestBody | .sentinel .ErrMalformedRequest
  | .sentinel .ErrBadUpstreamURL => StatusBadRequest
  | .sentinel .ErrInvalidContentType => StatusUnsupportedMediaType
  | .sentinel .ErrInternalServerError | .sentinel .ErrFailedCreatingNewRequest
  | .sentinel .ErrReadingResponseBody | .sentinel .ErrTypeAssertion =>
    StatusInternalServerError
  | .sentinel .ErrRequestTimeout | .sentinel .ErrUpstreamHealthCheckFailed =>
    StatusServiceUnavailable
  | _ =>
    if ValidHTTPStatusCode err.Error ≠ "" then
      (Atoi err.Error).getD 0
    else StatusInternalServerError

/-- A value stored in the `map[string]interface{}` that is encoded as the
response body: a Go string, a Go int, or a pointer to a raw JSON message
(written verbatim, compacted, by the encoder). -/
inductive JVal
  | str (s : String)
  | int (n : Int)
  | raw (m : RawMessage)
  deriving DecidableEq, Repr

/-- The map `jsonResponse`: at most one entry per key. -/
abbrev JMap := List (String × JVal)

/-- The index expression `m[key]` with its `ok` flag. -/
def mapGet (m : JMap) (key : String) : Option JVal :=
  m.lookup key

/-- The assignment `m[key] = v`. -/
def mapSet (m : JMap) (key : String) (v : JVal) : JMap :=
  (key, v) :: m.filter (fun entry => entry.1 != key)

/-- What a handler wrote to the `http.ResponseWriter`: the status code given
to `WriteHeader`, the Content-Type header and the JSON object handed to the
encoder as body. Whether `net/http` transmits a body for that code (it does
not for 1xx, 204 and 304) is outside the model. -/
structure HTTPWritten where
  Code : Int
  ContentType : String
  Body : JMap
  deriving DecidableEq, Repr

/-- `encodeReceiveAndForwardResponse` of transport.go. The first branch of the
source needs a response implementing `errorer`, which none does. -/
def encodeReceiveAndForwardResponse (resp : Response) : HTTPWritten :=
  let httpStatusText : GoError := ErrInternalServerError
  let jsonResponse : JMap := []
  let (httpStatusText, jsonResponse) :=
    match resp with
    | .receiveAndForward response =>
      let jsonResponse :=
        if response.Reason ≠ "" then mapSet jsonResponse "reason" (.str response.Reason)
        else jsonResponse
      let httpStatusText :=
        if response.Status > 0 then GoError.new (Itoa response.Status)
        else
          match response.ErrorDescription with
          | some err => err
          | none => ErrInternalServerError
      let jsonResponse :=
        match response.Message with
        | some message =>
          let jsonResponse := mapSet jsonResponse "message" (.str "")
          if (jsonMarshalRaw (some message)).isSome then
            mapSet jsonResponse "message" (.raw message)
          else jsonResponse
        | none => jsonResponse
      let jsonResponse :=
        if response.Error ≠ 0 then
          -- json.Marshal of an int never fails
          mapSet (mapSet jsonResponse "error" (.int ErrUnknown)) "error" (.int response.Error)
        else jsonResponse
      (httpStatusText, jsonResponse)
    | _ => (httpStatusText, jsonResponse)
  let httpStatusCode := codeFrom httpStatusText
  let jsonResponse := mapSet jsonResponse "status" (.int httpStatusCode)
  let jsonResponse :=
    match mapGet jsonResponse "message" with
    | none => mapSet jsonResponse "message" (.str (StatusText httpStatusCode))
    | some val =>
      if val = .str "" then mapSet jsonResponse "message" (.str (StatusText httpStatusCode))
      else jsonResponse
  { Code := httpStatusCode, ContentType := "application/json; charset=utf-8",
    Body := jsonResponse }

/-- `encodeError` of transport.go, for the non-nil error it is given. -/
def encodeError (err : GoError) : HTTPWritten :=
  let httpStatusCode := codeFrom err
  { Code := httpStatusCode, ContentType := "application/json; charset=utf-8",
    Body := mapSet (mapSet (mapSet [] "status" (.int httpStatusCode))
      "message" (.str (StatusText httpStatusCode))) "reason" (.str err.Error) }

/-! ## Outbound traffic and the upstream client -/

/-- Header keys as `net/http` stores them. -/
def validHeaderFieldByte (c : Char) : Bool :=
  let n := c.toNat
  (48 ≤ n && n ≤ 57) || (65 ≤ n && n ≤ 90) || (97 ≤ n && n ≤ 122)
    || n = 33 || n = 35 || n = 36 || n = 37 || n = 38 || n = 39 || n = 42 || n = 43
    || n = 45 || n = 46 || n = 94 || n = 95 || n = 96 || n = 124 || n = 126

/-- Upper case at the start and after a hyphen, lower case elsewhere. -/
def canonicalLoop : Bool → List Char → List Char
  | _, [] => []
  | upper, c :: cs =>
    let c1 :=
      if upper && (97 ≤ c.toNat && c.toNat ≤ 122) then Char.ofNat (c.toNat - 32)
      else if !upper && (65 ≤ c.toNat && c.toNat ≤ 90) then Char.ofNat (c.toNat + 32)
      else c
    c1 :: canonicalLoop (c1 = '-') cs

/-- Go `textproto.CanonicalMIMEHeaderKey`: a key with a byte that is not a
token byte is returned unchanged. -/
def CanonicalMIMEHeaderKey (s : String) : String :=
  if s.data.all validHeaderFieldByte then String.mk (canonicalLoop true s.data) else s

/-- A `http.Header` restricted to single values. -/
abbrev Header := List (String × String)

/-- The method `Header.Set`. -/
def headerSet (h : Header) (key value : String) : Header :=
  (CanonicalMIMEHeaderKey key, value)
    :: h.filter (fun entry => entry.1 != CanonicalMIMEHeaderKey key)

/-- The method `Header.Get`. -/
def headerGet (h : Header) (key : String) : String :=
  (h.lookup (CanonicalMIMEHeaderKey key)).getD ""

/-- A request handed to the upstream client: method, the URL string given to
`http.NewRequest`, the parameters added to the URL query afterwards, headers
and body bytes. -/
structure OutboundRequest where
  Method : String
  URL : String
  QueryAdded : List (String × String) := []
  Header : Header := []
  Body : Option String := none
  deriving DecidableEq, Repr

/-- What the upstream client returns for a completed exchange: the status code
and the result of reading the whole body. -/
structure HTTPResponse where
  StatusCode : Int
  Body : Except GoError String

/-- What `json.Unmarshal(responseBody, &rf)` stores into `rf` when it succeeds:
only the members that the document has, with a value other than null; a field
whose member is missing keeps the value it had. No document can set
`ErrorDescription`, a field of interface type. -/
structure BodyFields where
  status : Option Int := none
  message : Option RawMessage := none
  reason : Option String := none
  error : Option Int := none
  deriving DecidableEq, Repr

/-- Stores the decoded members into `rf`. -/
def BodyFields.store (f : BodyFields) (rf : ReceiveAndForwardResponse) :
    ReceiveAndForwardResponse :=
  { rf with
    Status := f.status.getD rf.Status
    Message := match f.message with
      | some m => some m
      | none => rf.Message
    Reason := f.reason.getD rf.Reason
    Error := f.error.getD rf.Error }

/-- The collaborators of the service outside the package: `http.NewRequest`
(the error it returns for a method and URL, if any), the method `Do` of the
upstream `http.Client`, and the decoding of a response body by
`json.Unmarshal`. -/
structure Env where
  NewRequest : String → String → Option GoError
  Do : OutboundRequest → Except GoError HTTPResponse
  Unmarshal : String → Except GoError BodyFields

/-- Result of a Go call: it returned a value, or it panicked. -/
inductive Outcome (α : Type)
  | returned (value : α)
  | panicked (value : String)
  deriving DecidableEq, Repr

/-- A call together with the requests it executed on the upstream client, in
order. Log lines are written to the logger only and are not part of a run. -/
structure Run (α : Type) where
  calls : List OutboundRequest
  outcome : Outcome α
  deriving DecidableEq, Repr

/-! ## service.go -/

def UpstreamSelfServiceEndpoint : String := "/task"
def UpstreamHealthEndpoint : String := "/health"
def DefaultUpstreamScheme : String := "https"

/-- The interface `Service`. -/
structure Service where
  ReceiveAndForward : ReceiveAndForwardRequest → Run (ReceiveAndForwardResponse × Option GoError)
  HealthCheck : Run (HealthCheckResponse × Option GoError)
  Version : Run (VersionResponse × Option GoError)

/-- `setHeaders` of service.go. -/
def setHeaders (request : ReceiveAndForwardRequest) (req : OutboundRequest) : OutboundRequest :=
  let h := headerSet req.Header "Authorization" request.Authorization
  let h := headerSet h "Content-Type" request.ContentType
  let h := headerSet h "X-Forwarded-For" request.XForwardedFor
  let h := headerSet h "x-request-id" request.RequestID
  { req with Header := h }

/-- `setReceiveAndForwardResponse` of service.go: the message is the status
text as raw bytes (not quoted, so not a JSON value). -/
def setReceiveAndForwardResponse (httpStatusCode : Int) (reason : String) :
    ReceiveAndForwardResponse :=
  { Status := httpStatusCode, Message := some (StatusText httpStatusCode), Reason := reason }

/-- `testUpstreamHealth` of service.go, with the requests it executed. -/
def testUpstreamHealth (env : Env) (upstreamServer upstreamPort : String) :
    Errorify × List OutboundRequest :=
  let upstreamURL := upstreamServer ++ upstreamPort ++ UpstreamHealthEndpoint
  match env.NewRequest "GET" upstreamURL with
  | some err => (classifyRequestError (some err), [])
  | none =>
    let request : OutboundRequest := { Method := "GET", URL := upstreamURL }
    match env.Do request with
    | .error err => (classifyRequestError (some err), [request])
    | .ok resp =>
      if resp.StatusCode = StatusOK then ({}, [request])
      else
        -- `err` is nil here: the call to Do succeeded
        ({ Status := StatusServiceUnavailable, Err := none }, [request])

/-- The method `ReceiveAndForward` of `service`. -/
def service.ReceiveAndForward (env : Env) (upstreamPort : String)
    (request : ReceiveAndForwardRequest) : Run (ReceiveAndForwardResponse × Option GoError) :=
  match jsonMarshalRaw request.Task with
  | none =>
    ⟨[], .returned (setReceiveAndForwardResponse StatusBadRequest ErrJSONUnMarshall.Error,
      some ErrJSONUnMarshall)⟩
  | some inBytes =>
    let upstreamServer := DefaultUpstreamScheme ++ "://" ++ request.TargetURL
    let (err, probeCalls) := testUpstreamHealth env upstreamServer upstreamPort
    if err ≠ {} then
      ⟨probeCalls, .returned
        (setReceiveAndForwardResponse err.Status ErrUpstreamHealthCheckFailed.Error,
          Wrap err.Err ErrUpstreamHealthCheckFailed.Error)⟩
    else
      let upstreamURL := upstreamServer ++ upstreamPort ++ UpstreamSelfServiceEndpoint
      match env.NewRequest "POST" upstreamURL with
      | some err =>
        ⟨probeCalls, .returned
          (setReceiveAndForwardResponse StatusInternalServerError ErrFailedCreatingNewRequest.Error,
            Wrap (some err) ErrFailedCreatingNewRequest.Error)⟩
      | none =>
        let req : OutboundRequest := { Method := "POST", URL := upstreamURL, Body := some inBytes }
        let req := setHeaders request req
        let req := if request.IsBeta then { req with QueryAdded := [("beta", "true")] } else req
        match env.Do req with
        | .error err =>
          let errStruct := classifyRequestError (some err)
          match errStruct.Err with
          | none => ⟨probeCalls ++ [req], .panicked "nil pointer dereference"⟩
          | some e =>
            let errMessage := if errStruct.Message ≠ "" then errStruct.Message else e.Error
            ⟨probeCalls ++ [req], .returned
              (setReceiveAndForwardResponse errStruct.Status errMessage, errStruct.Err)⟩
        | .ok resp =>
          let rf : ReceiveAndForwardResponse := { Status := resp.StatusCode }
          match resp.Body with
          | .error err =>
            ⟨probeCalls ++ [req], .returned
              (setReceiveAndForwardResponse StatusInternalServerError ErrReadingResponseBody.Error,
                Wrap (some err) ErrReadingResponseBody.Error)⟩
          | .ok responseBody =>
            match env.Unmarshal responseBody with
            | .error err =>
              ⟨probeCalls ++ [req], .returned
                (setReceiveAndForwardResponse StatusInternalServerError ErrReadingResponseBody.Error,
                  Wrap (some err) ErrReadingResponseBody.Error)⟩
            | .ok fields => ⟨probeCalls ++ [req], .returned (fields.store rf, none)⟩

/-- The method `HealthCheck` of `service`. -/
def service.HealthCheck : Run (HealthCheckResponse × Option GoError) :=
  ⟨[], .returned ({ Status := "OK" }, none)⟩

/-- The method `Version` of `service`; `ProxyVersion` is the package variable. -/
def service.Version (ProxyVersion : String) : Run (VersionResponse × Option GoError) :=
  ⟨[], .returned ({ GoproxyVersion := ProxyVersion }, none)⟩

/-- `NewService` of service.go. -/
def NewService (env : Env) (upstreamPort ProxyVersion : String) : Service :=
  { ReceiveAndForward := service.ReceiveAndForward env upstreamPort
    HealthCheck := service.HealthCheck
    Version := service.Version ProxyVersion }

/-! ## logging.go: the service logging stage

Each method runs the wrapped method and then its deferred function, which
assembles and writes a log line and may assign the named result `err`. The
deferred functions do not call `recover`, so a panic continues upwards. -/

/-- The assignments of the deferred function of `ReceiveAndForward` to the
named result `err`. -/
def loggingMiddlerware.deferredReceiveAndForward (output : ReceiveAndForwardResponse)
    (err : Option GoError) : Option GoError :=
  match err with
  | some _ =>
    let err := some ErrInternalServerError
    if output.Status ≠ 0 ∧ output.Status ≠ StatusOK then some (GoError.new (Itoa output.Status))
    else err
  | none => err

/-- The method `ReceiveAndForward` of `loggingMiddlerware`. -/
def loggingMiddlerware.ReceiveAndForward (next : Service) (request : ReceiveAndForwardRequest) :
    Run (ReceiveAndForwardResponse × Option GoError) :=
  let r := next.ReceiveAndForward request
  match r.outcome with
  | .returned (output, err) =>
    ⟨r.calls, .returned (output, loggingMiddlerware.deferredReceiveAndForward output err)⟩
  | .panicked v => ⟨r.calls, .panicked v⟩

/-- The method `HealthCheck` of `loggingMiddlerware`: its deferred function
only reads `output` and `err`. -/
def loggingMiddlerware.HealthCheck (next : Service) : Run (HealthCheckResponse × Option GoError) :=
  let r := next.HealthCheck
  match r.outcome with
  | .returned (output, err) => ⟨r.calls, .returned (output, err)⟩
  | .panicked v => ⟨r.calls, .panicked v⟩

/-- The method `Version` of `loggingMiddlerware`: its deferred function only
reads `output` and `err`. -/
def loggingMiddlerware.Version (next : Service) : Run (VersionResponse × Option GoError) :=
  let r := next.Version
  match r.outcome with
  | .returned (output, err) => ⟨r.calls, .returned (output, err)⟩
  | .panicked v => ⟨r.calls, .panicked v⟩

/-- `ServiceLoggingMiddleware` of middleware.go. -/
def ServiceLoggingMiddleware (next : Service) : Service :=
  { ReceiveAndForward := loggingMiddlerware.ReceiveAndForward next
    HealthCheck := loggingMiddlerware.HealthCheck next
    Version := loggingMiddlerware.Version next }

/-! ## endpoint.go and middleware.go -/

/-- A go-kit `endpoint.Endpoint`. -/
abbrev Endpoint := Request → Run (Response × Option GoError)

/-- Panic value of a failed type assertion to `ReceiveAndForwardRequest`. -/
def assertionPanic : String :=
  "interface conversion: interface is not goproxy.ReceiveAndForwardRequest"

def makeReceiveAndForwardEndpoint (psvc : Service) : Endpoint := fun request =>
  match request with
  | .receiveAndForward req =>
    let r := psvc.ReceiveAndForward req
    match r.outcome with
    | .returned (output, err) => ⟨r.calls, .returned (.receiveAndForward output, err)⟩
    | .panicked v => ⟨r.calls, .panicked v⟩
  | _ => ⟨[], .panicked assertionPanic⟩

def makeHealthCheckEndpoint (psvc : Service) : Endpoint := fun _ =>
  let r := psvc.HealthCheck
  match r.outcome with
  | .returned (output, err) => ⟨r.calls, .returned (.healthCheck output, err)⟩
  | .panicked v => ⟨r.calls, .panicked v⟩

def makeVersionEndpoint (psvc : Service) : Endpoint := fun _ =>
  let r := psvc.Version
  match r.outcome with
  | .returned (output, err) => ⟨r.calls, .returned (.version output, err)⟩
  | .panicked v => ⟨r.calls, .panicked v⟩

/-- The struct `Endpoints`. -/
structure Endpoints where
  ReceiveAndForward : Endpoint
  HealthCheck : Endpoint
  Version : Endpoint

def MakeProxyServiceEndpoints (psvc : Service) : Endpoints :=
  { ReceiveAndForward := makeReceiveAndForwardEndpoint psvc
    HealthCheck := makeHealthCheckEndpoint psvc
    Version := makeVersionEndpoint psvc }

/-- The assignments of the deferred function of `EndpointLoggingMiddleware` to
the named result `err`: `recovered` is the value `recover()` returns. -/
def EndpointLoggingMiddleware.deferred (recovered : Option String) (err : Option GoError) :
    Option GoError :=
  let err :=
    match recovered with
    | some r => some (GoError.new r)
    | none => err
  match err with
  | some _ => none
  | none => err

/-- `EndpointLoggingMiddleware` of middleware.go. When the wrapped endpoint
panics the named results still hold their zero values (nil, nil) at the time
the deferred function runs, and the panic stops there. -/
def EndpointLoggingMiddleware (next : Endpoint) : Endpoint := fun request =>
  let r := next request
  match r.outcome with
  | .returned (output, err) =>
    ⟨r.calls, .returned (output, EndpointLoggingMiddleware.deferred none err)⟩
  | .panicked v =>
    ⟨r.calls, .returned (Response.nil, EndpointLoggingMiddleware.deferred (some v) none)⟩

/-- `EndpointRequestValidationMiddleware` of middleware.go. -/
def EndpointRequestValidationMiddleware (next : Endpoint) : Endpoint := fun request =>
  match request with
  | .receiveAndForward req =>
    let rf : ReceiveAndForwardResponse := {}
    if req.ContentType ≠ "application/json" then
      ⟨[], .returned
        (.receiveAndForward { rf with ErrorDescription := some ErrInvalidContentType,
                                      Reason := ErrInvalidContentType.Error },
          some ErrInvalidContentType)⟩
    else if req.TargetURL = "" then
      ⟨[], .returned
        (.receiveAndForward { rf with ErrorDescription := some ErrMissingTargetURL,
                                      Reason := ErrMissingTargetURL.Error },
          some ErrMissingTargetURL)⟩
    else next request
  | _ => ⟨[], .panicked assertionPanic⟩

def MakeEndpointMiddlewares (endpoints : Endpoints) : Endpoints :=
  { ReceiveAndForward :=
      EndpointLoggingMiddleware (EndpointRequestValidationMiddleware endpoints.ReceiveAndForward)
    HealthCheck := EndpointLoggingMiddleware endpoints.HealthCheck
    Version := EndpointLoggingMiddleware endpoints.Version }

/-! ## The /task handler -/

/-- The go-kit `Server.ServeHTTP` for a request that has been decoded, with
`encodeError` as error encoder (see `MakeHTTPHandler`): the endpoint runs; a
non-nil error goes to the error encoder, otherwise the response goes to the
response encoder. -/
def serve (e : Endpoint) (enc : Response → HTTPWritten) (request : Request) : Run HTTPWritten :=
  let r := e request
  match r.outcome with
  | .returned (_, some err) => ⟨r.calls, .returned (encodeError err)⟩
  | .returned (response, none) => ⟨r.calls, .returned (enc response)⟩
  | .panicked v => ⟨r.calls, .panicked v⟩

/-- The endpoints as `main` assembles them: the service, the service logging
stage, the endpoints, then the endpoint middlewares. -/
def gatewayEndpoints (env : Env) (upstreamPort ProxyVersion : String) : Endpoints :=
  MakeEndpointMiddlewares
    (MakeProxyServiceEndpoints (ServiceLoggingMiddleware (NewService env upstreamPort ProxyVersion)))

/-- The handler of POST /task from `MakeHTTPHandler`, on a decoded request. -/
def receiveAndForwardHandler (env : Env) (upstreamPort ProxyVersion : String)
    (req : ReceiveAndForwardRequest) : Run HTTPWritten :=
  serve (gatewayEndpoints env upstreamPort ProxyVersion).ReceiveAndForward
    encodeReceiveAndForwardResponse (.receiveAndForward req)

/-! ## transport.go: decoding of the inbound request -/

/-- Position of the first occurrence of `c`. -/
def indexByte : List Char → Char → Option Nat
  | [], _ => none
  | x :: xs, c => if x = c then some 0 else (indexByte xs c).map (fun i => i + 1)

/-- Position of the last occurrence of `c`. -/
def lastIndexByte : List Char → Char → Option Nat
  | [], _ => none
  | x :: xs, c =>
    match lastIndexByte xs c with
    | some i => some (i + 1)
    | none => if x = c then some 0 else none

/-- Go `net.SplitHostPort`: host and port of an address of the form host:port,
[host]:port or [host%zone]:port; `none` is a non-nil error. -/
def SplitHostPort (hostport : String) : Option (String × String) :=
  let cs := hostport.data
  match lastIndexByte cs ':' with
  | none => none
  | some i =>
    if cs.head? = some '[' then
      match indexByte cs ']' with
      | none => none
      | some closing =>
        if closing + 1 = i then
          if (indexByte (cs.drop 1) '[').isSome then none
          else if (indexByte (cs.drop (closing + 1)) ']').isSome then none
          else some (String.mk ((cs.take closing).drop 1), String.mk (cs.drop (i + 1)))
        else none
    else
      if (indexByte (cs.take i) ':').isSome then none
      else if (indexByte cs '[').isSome then none
      else if (indexByte cs ']').isSome then none
      else some (String.mk (cs.take i), String.mk (cs.drop (i + 1)))

/-- Go `strconv.Quote`, for text in which only the double quote and the
backslash need an escape. -/
def Quote (s : String) : String :=
  String.mk ([quoteChar]
    ++ s.data.flatMap (fun c =>
        if c = quoteChar ∨ c = backslashChar then [backslashChar, c] else [c])
    ++ [quoteChar])

/-- Go `strconv.ParseBool`. -/
def ParseBool (str : String) : Except GoError Bool :=
  if str ∈ ["1", "t", "T", "TRUE", "true", "True"] then .ok true
  else if str ∈ ["0", "f", "F", "FALSE", "false", "False"] then .ok false
  else .error (.new ("strconv.ParseBool: parsing " ++ Quote str ++ ": invalid syntax"))

/-- Outcome of `json.NewDecoder(r.Body).Decode(&req.Body)`: the error is
`io.EOF`, another error, or nil with the decoded body. -/
inductive BodyDecode
  | eof
  | malformed
  | ok (body : Body)
  deriving DecidableEq, Repr

/-- The parts of the inbound `*http.Request` the package reads: the headers,
the remote address, the decoding of the body and the value of the query
parameter beta. -/
structure InboundRequest where
  Header : Header := []
  RemoteAddr : String := ""
  Body : BodyDecode := .eof
  Beta : String := ""
  deriving DecidableEq, Repr

/-- `copyHeaders` of transport.go. -/
def copyHeaders (req : ReceiveAndForwardRequest) (r : InboundRequest) :
    ReceiveAndForwardRequest :=
  let req := { req with Authorization := headerGet r.Header "Authorization" }
  let req := { req with RequestID := headerGet r.Header "x-request-id" }
  let req := { req with ContentType := headerGet r.Header "Content-Type" }
  match SplitHostPort r.RemoteAddr with
  | some (clientIP, _) =>
    let prior := headerGet r.Header "X-Forwarded-For"
    let clientIP := if prior ≠ "" then prior ++ "," ++ clientIP else clientIP
    { req with XForwardedFor := clientIP }
  | none => req

/-- `decodeReceiveAndForwardRequest` of transport.go: the request, or the
non-nil error returned. -/
def decodeReceiveAndForwardRequest (r : InboundRequest) : Except GoError ReceiveAndForwardRequest :=
  match r.Body with
  | .eof => .error ErrEmptyRequestBody
  | .malformed => .error ErrMalformedRequest
  | .ok body =>
    let req : ReceiveAndForwardRequest := { toHeaders := {}, toQueryString := {}, toBody := body }
    let req := copyHeaders req r
    let isBeta := r.Beta
    if isBeta.length > 0 then
      match ParseBool isBeta with
      | .error err => .error err
      | .ok beta => .ok { req with IsBeta := beta }
    else .ok req

/-! ## transport.go: the generic encoder and the three handlers -/

/-- The value `encodeGenericResponse` hands to the JSON encoder: nil is
written as `null`, the responses of /health and /version as objects; a task
response is a struct that the encoder would write field by field, which is not
expanded here since the generic encoder serves /health and /version only. -/
inductive GenericBody
  | null
  | object (m : JMap)
  | structValue (resp : ReceiveAndForwardResponse)
  deriving DecidableEq, Repr

/-- What a handler with the generic encoder wrote. -/
structure GenericWritten where
  Code : Int
  ContentType : String
  Body : GenericBody
  deriving DecidableEq, Repr

/-- `encodeGenericResponse` of transport.go. No response implements `errorer`,
so the first branch is never taken; the function does not call `WriteHeader`,
and `net/http` then sends status 200 with the first write. The member
"goproxy" is omitted when empty. -/
def encodeGenericResponse (resp : Response) : GenericWritten :=
  { Code := StatusOK
    ContentType := "application/json; charset=utf-8"
    Body :=
      match resp with
      | .nil => .null
      | .healthCheck r => .object [("status", .str r.Status)]
      | .version r =>
        .object (if r.GoproxyVersion = "" then [] else [("goproxy", .str r.GoproxyVersion)])
      | .receiveAndForward r => .structValue r }

/-- The go-kit `Server.ServeHTTP` with `encodeGenericResponse` as response
encoder and `encodeError` as error encoder, for a decoded request. -/
def serveGeneric (e : Endpoint) (request : Request) : Run GenericWritten :=
  let r := e request
  match r.outcome with
  | .returned (_, some err) =>
    ⟨r.calls, .returned
      ⟨(encodeError err).Code, (encodeError err).ContentType, .object (encodeError err).Body⟩⟩
  | .returned (response, none) => ⟨r.calls, .returned (encodeGenericResponse response)⟩
  | .panicked v => ⟨r.calls, .panicked v⟩

/-- The handler of GET /health from `MakeHTTPHandler`. -/
def healthCheckHandler (endpoints : Endpoints) : Run GenericWritten :=
  serveGeneric endpoints.HealthCheck .healthCheck

/-- The handler of GET /version from `MakeHTTPHandler`. -/
def versionHandler (endpoints : Endpoints) : Run GenericWritten :=
  serveGeneric endpoints.Version .version

/-- The handler of POST /task from `MakeHTTPHandler`, decoding included: a
decoding error goes to the error encoder and the endpoint is not run. -/
def taskHandler (endpoints : Endpoints) (r : InboundRequest) : Run HTTPWritten :=
  match decodeReceiveAndForwardRequest r with
  | .error err => ⟨[], .returned (encodeError err)⟩
  | .ok req =>
    serve endpoints.ReceiveAndForward encodeReceiveAndForwardResponse (.receiveAndForward req)

/-! ## Sample collaborators, used to instantiate the statements -/

/-- An upstream that refuses every connection. -/
def refusingEnv : Env :=
  { NewRequest := fun _ _ => none
    Do := fun _ => .error (.net "dial tcp 10.0.0.1:8443: connect: connection refused" false)
    Unmarshal := fun _ => .error (.new "unexpected end of JSON input") }

/-- An upstream whose health endpoint answers 200 and whose task endpoint
answers with the given status code and decoded members. -/
def healthyEnv (code : Int) (fields : BodyFields) : Env :=
  { NewRequest := fun _ _ => none
    Do := fun r =>
      if r.Method = "GET" then .ok { StatusCode := 200, Body := .ok "" }
      else .ok { StatusCode := code, Body := .ok "body" }
    Unmarshal := fun _ => .ok fields }

/-- An upstream whose health endpoint answers 200 and whose task endpoint
refuses the connection. -/
def refusingTaskEnv : Env :=
  { NewRequest := fun _ _ => none
    Do := fun r =>
      if r.Method = "GET" then .ok { StatusCode := 200, Body := .ok "" }
      else .error (.net "dial tcp 10.0.0.1:8443: connect: connection refused" false)
    Unmarshal := fun _ => .error (.new "unexpected end of JSON input") }

/-- A well-formed task request. -/
def sampleRequest : ReceiveAndForwardRequest :=
  { ContentType := "application/json", RequestID := "r-1", TargetURL := "svc.internal",
    Task := some "\x7b\"a\":1\x7d" }

/-- An upstream whose health endpoint answers 500. -/
def unhealthyEnv : Env :=
  { NewRequest := fun _ _ => none
    Do := fun _ => .ok { StatusCode := 500, Body := .ok "" }
    Unmarshal := fun _ => .error (.new "unexpected end of JSON input") }

/-- An upstream whose health endpoint answers 200 and whose task endpoint
closes the connection without an answer. -/
def droppingTaskEnv : Env :=
  { NewRequest := fun _ _ => none
    Do := fun r =>
      if r.Method = "GET" then .ok { StatusCode := 200, Body := .ok "" }
      else .error (.net "Post \"https://svc.internal:8443/task\": EOF" false)
    Unmarshal := fun _ => .error (.new "unexpected end of JSON input") }

/-- A service whose three operations panic. -/
def panickingService : Service :=
  { ReceiveAndForward := fun _ => ⟨[], .panicked "boom"⟩
    HealthCheck := ⟨[], .panicked "boom"⟩
    Version := ⟨[], .panicked "boom"⟩ }

/-- An inbound task request with a request id and a forwarding chain. -/
def sampleInbound : InboundRequest :=
  { Header := [("Content-Type", "application/json"), ("X-Request-Id", "r-1"),
               ("X-Forwarded-For", "203.0.113.7")]
    RemoteAddr := "198.51.100.4:51512"
    Body := .ok { TargetURL := "svc.internal", Task := some "\x7b\"a\":1\x7d" } }

/-! ## Properties -/

/-! ### The error classifier -/

/-- C1 (as stated, refuted): an error that is not a network-layer error and
whose text ends with "no such host" matches rule (2) of the stated table, yet
the classifier returns status 500 with an empty message for it. -/
theorem classifyRequestError_plain_no_such_host :
    (GoError.new "lookup nowhere.invalid: no such host").isNetError = false ∧
    HasSuffix (GoError.new "lookup nowhere.invalid: no such host").Error "no such host" = true ∧
    classifyRequestError (some (.new "lookup nowhere.invalid: no such host"))
      = { Status := 500, Err := some (.new "lookup nowhere.invalid: no such host"),
          Message := "" } ∧
    (classifyRequestError (some (.new "lookup nowhere.invalid: no such host"))).Status ≠ 400 := by
  decide

/-- C1 (amended): for every error, the classifier returns 504 "Request timeout"
for a network-layer error reporting a timeout; otherwise 400 "upstream host not
found" for a network-layer error whose text ends with "no such host"; otherwise
502 "Connection Refused" for a network-layer error whose text ends with
"connection refused"; and 500 with an empty message for every other error,
which includes every error that is not a network-layer error, whatever its
text, and the nil error. The returned Err is the input and the Status is one of
400, 500, 502, 504. -/
theorem classifyRequestError_table (e : GoError) :
    (e.isNetError = true → e.Timeout = true →
      classifyRequestError (some e)
        = { Status := 504, Err := some e, Message := "Request timeout" }) ∧
    (e.isNetError = true → e.Timeout = false → HasSuffix e.Error "no such host" = true →
      classifyRequestError (some e)
        = { Status := 400, Err := some e, Message := "upstream host not found" }) ∧
    (e.isNetError = true → e.Timeout = false → HasSuffix e.Error "no such host" = false →
      HasSuffix e.Error "connection refused" = true →
      classifyRequestError (some e)
        = { Status := 502, Err := some e, Message := "Connection Refused" }) ∧
    (e.isNetError = true → e.Timeout = false → HasSuffix e.Error "no such host" = false →
      HasSuffix e.Error "connection refused" = false →
      classifyRequestError (some e) = { Status := 500, Err := some e, Message := "" }) ∧
    (e.isNetError = false →
      classifyRequestError (some e) = { Status := 500, Err := some e, Message := "" }) ∧
    classifyRequestError none = { Status := 500, Err := none, Message := "" } ∧
    (classifyRequestError (some e)).Err = some e ∧
    ((classifyRequestError (some e)).Status = 400 ∨ (classifyRequestError (some e)).Status = 500 ∨
      (classifyRequestError (some e)).Status = 502 ∨ (classifyRequestError (some e)).Status = 504) := by
  cases e with
  | sentinel s =>
    simp [classifyRequestError, GoError.isNetError, StatusInternalServerError]
  | new text =>
    simp [classifyRequestError, GoError.isNetError, StatusInternalServerError]
  | wrap cause message =>
    simp [classifyRequestError, GoError.isNetError, StatusInternalServerError]
  | net text timeout =>
    cases timeout
    · by_cases h1 : HasSuffix text "no such host" = true
      · simp [classifyRequestError, GoError.isNetError, GoError.Timeout, GoError.Error, h1,
          StatusBadRequest, StatusInternalServerError, ErrBadUpstreamURL, Sentinel.text]
      · by_cases h2 : HasSuffix text "connection refused" = true
        · simp [classifyRequestError, GoError.isNetError, GoError.Timeout, GoError.Error, h1, h2,
            StatusBadGateway, StatusInternalServerError]
        · simp [classifyRequestError, GoError.isNetError, GoError.Timeout, GoError.Error, h1, h2,
            StatusInternalServerError]
    · simp [classifyRequestError, GoError.isNetError, GoError.Timeout, GoError.Error,
        StatusGatewayTimeout, StatusInternalServerError]

/-- Instance of the table: a refused connection reported by the network layer. -/
theorem classifyRequestError_table_witness :
    classifyRequestError (some (.net "dial tcp 10.0.0.1:8443: connect: connection refused" false))
      = { Status := 502,
          Err := some (.net "dial tcp 10.0.0.1:8443: connect: connection refused" false),
          Message := "Connection Refused" } :=
  (classifyRequestError_table
    (.net "dial tcp 10.0.0.1:8443: connect: connection refused" false)).2.2.1
      (by decide) (by decide) (by decide) (by decide)

/-! ### The validation stage -/

/-- The validation stage on a request with a wrong content type, for any
wrapped endpoint. -/
theorem validation_content_type (next : Endpoint) (req : ReceiveAndForwardRequest)
    (h : req.ContentType ≠ "application/json") :
    EndpointRequestValidationMiddleware next (.receiveAndForward req)
      = ⟨[], .returned
          (.receiveAndForward
            { Reason := "invalid content type", ErrorDescription := some ErrInvalidContentType },
           some ErrInvalidContentType)⟩ := by
  simp [EndpointRequestValidationMiddleware, h, ErrInvalidContentType, GoError.Error,
    Sentinel.text]

/-- The validation stage on a request with the right content type and an empty
target, for any wrapped endpoint. -/
theorem validation_missing_target (next : Endpoint) (req : ReceiveAndForwardRequest)
    (hc : req.ContentType = "application/json") (ht : req.TargetURL = "") :
    EndpointRequestValidationMiddleware next (.receiveAndForward req)
      = ⟨[], .returned
          (.receiveAndForward
            { Reason := "missing target URL in request body",
              ErrorDescription := some ErrMissingTargetURL },
           some ErrMissingTargetURL)⟩ := by
  simp [EndpointRequestValidationMiddleware, hc, ht, ErrMissingTargetURL, GoError.Error,
    Sentinel.text]

/-- The validation stage passes every other task request to the wrapped
endpoint. -/
theorem validation_pass (next : Endpoint) (req : ReceiveAndForwardRequest)
    (hc : req.ContentType = "application/json") (ht : req.TargetURL ≠ "") :
    EndpointRequestValidationMiddleware next (.receiveAndForward req)
      = next (.receiveAndForward req) := by
  simp [EndpointRequestValidationMiddleware, hc, ht]

/-- C2: for every task request whose content type is not exactly
"application/json", whatever the wrapped forwarding endpoint is, the validation
stage returns without running it (no upstream request is recorded) the error
ErrInvalidContentType with reason "invalid content type"; and the gateway
writes HTTP status 415 with status field 415 and makes no upstream call. -/
theorem invalid_content_type_is_415 (next : Endpoint) (env : Env)
    (upstreamPort ProxyVersion : String) (req : ReceiveAndForwardRequest)
    (h : req.ContentType ≠ "application/json") :
    EndpointRequestValidationMiddleware next (.receiveAndForward req)
      = ⟨[], .returned
          (.receiveAndForward
            { Reason := "invalid content type", ErrorDescription := some ErrInvalidContentType },
           some ErrInvalidContentType)⟩ ∧
    serve (EndpointLoggingMiddleware (EndpointRequestValidationMiddleware next))
        encodeReceiveAndForwardResponse (.receiveAndForward req)
      = ⟨[], .returned ⟨415, "application/json; charset=utf-8",
          [("message", .str "Unsupported Media Type"), ("status", .int 415),
           ("reason", .str "invalid content type")]⟩⟩ ∧
    receiveAndForwardHandler env upstreamPort ProxyVersion req
      = ⟨[], .returned ⟨415, "application/json; charset=utf-8",
          [("message", .str "Unsupported Media Type"), ("status", .int 415),
           ("reason", .str "invalid content type")]⟩⟩ := by
  refine ⟨validation_content_type next req h, ?_, ?_⟩
  · simp only [serve, EndpointLoggingMiddleware, validation_content_type next req h]
    decide
  · simp only [receiveAndForwardHandler, gatewayEndpoints, MakeEndpointMiddlewares, serve,
      EndpointLoggingMiddleware, validation_content_type _ req h]
    decide

/-- Instance of C2: a task request sent as text/plain. -/
theorem invalid_content_type_is_415_witness :
    receiveAndForwardHandler refusingEnv ":8443" "v1"
        { sampleRequest with ContentType := "text/plain" }
      = ⟨[], .returned ⟨415, "application/json; charset=utf-8",
          [("message", .str "Unsupported Media Type"), ("status", .int 415),
           ("reason", .str "invalid content type")]⟩⟩ :=
  (invalid_content_type_is_415 (fun _ => ⟨[], .panicked "unused"⟩) refusingEnv ":8443" "v1"
    { sampleRequest with ContentType := "text/plain" } (by decide)).2.2

/-- C3 (as stated, refuted): a task request with an empty target and a content
type other than "application/json" is answered with HTTP 415 and reason
"invalid content type", not with HTTP 400. -/
theorem empty_target_wrong_content_type_is_415 :
    ({ ContentType := "text/plain", TargetURL := "" } : ReceiveAndForwardRequest).TargetURL = "" ∧
    receiveAndForwardHandler refusingEnv ":8443" "v1"
        { ContentType := "text/plain", TargetURL := "" }
      = ⟨[], .returned ⟨415, "application/json; charset=utf-8",
          [("message", .str "Unsupported Media Type"), ("status", .int 415),
           ("reason", .str "invalid content type")]⟩⟩ := by
  decide

/-- C3 (amended): for every task request whose content type is exactly
"application/json" and whose target host is the empty string, the gateway
writes HTTP 400 with reason "missing target URL in request body", and the
wrapped forwarding endpoint, whatever it is, is not run (no upstream request is
recorded). -/
theorem empty_target_is_400 (next : Endpoint) (env : Env)
    (upstreamPort ProxyVersion : String) (req : ReceiveAndForwardRequest)
    (hc : req.ContentType = "application/json") (ht : req.TargetURL = "") :
    EndpointRequestValidationMiddleware next (.receiveAndForward req)
      = ⟨[], .returned
          (.receiveAndForward
            { Reason := "missing target URL in request body",
              ErrorDescription := some ErrMissingTargetURL },
           some ErrMissingTargetURL)⟩ ∧
    serve (EndpointLoggingMiddleware (EndpointRequestValidationMiddleware next))
        encodeReceiveAndForwardResponse (.receiveAndForward req)
      = ⟨[], .returned ⟨400, "application/json; charset=utf-8",
          [("message", .str "Bad Request"), ("status", .int 400),
           ("reason", .str "missing target URL in request body")]⟩⟩ ∧
    receiveAndForwardHandler env upstreamPort ProxyVersion req
      = ⟨[], .returned ⟨400, "application/json; charset=utf-8",
          [("message", .str "Bad Request"), ("status", .int 400),
           ("reason", .str "missing target URL in request body")]⟩⟩ := by
  refine ⟨validation_missing_target next req hc ht, ?_, ?_⟩
  · simp only [serve, EndpointLoggingMiddleware, validation_missing_target next req hc ht]
    decide
  · simp only [receiveAndForwardHandler, gatewayEndpoints, MakeEndpointMiddlewares, serve,
      EndpointLoggingMiddleware, validation_missing_target _ req hc ht]
    decide

/-- Instance of the amended C3: a JSON task request without a target. -/
theorem empty_target_is_400_witness :
    receiveAndForwardHandler refusingEnv ":8443" "v1"
        { sampleRequest with TargetURL := "" }
      = ⟨[], .returned ⟨400, "application/json; charset=utf-8",
          [("message", .str "Bad Request"), ("status", .int 400),
           ("reason", .str "missing target URL in request body")]⟩⟩ :=
  (empty_target_is_400 (fun _ => ⟨[], .panicked "unused"⟩) refusingEnv ":8443" "v1"
    { sampleRequest with TargetURL := "" } (by decide) (by decide)).2.2

/-! ### Status codes -/

/-- C7: the code of each sentinel of the lookup table, and for every other
error the number its text spells when that number has a status text, 500
otherwise. -/
theorem codeFrom_table (e : GoError) :
    codeFrom ErrJSONUnMarshall = 400 ∧ codeFrom ErrMissingTargetURL = 400 ∧
    codeFrom ErrEmptyRequestBody = 400 ∧ codeFrom ErrMalformedRequest = 400 ∧
    codeFrom ErrBadUpstreamURL = 400 ∧
    codeFrom ErrInvalidContentType = 415 ∧
    codeFrom ErrInternalServerError = 500 ∧ codeFrom ErrFailedCreatingNewRequest = 500 ∧
    codeFrom ErrReadingResponseBody = 500 ∧ codeFrom ErrTypeAssertion = 500 ∧
    codeFrom ErrRequestTimeout = 503 ∧ codeFrom ErrUpstreamHealthCheckFailed = 503 ∧
    (e ∉ [ErrJSONUnMarshall, ErrMissingTargetURL, ErrEmptyRequestBody, ErrMalformedRequest,
          ErrBadUpstreamURL, ErrInvalidContentType, ErrInternalServerError,
          ErrFailedCreatingNewRequest, ErrReadingResponseBody, ErrTypeAssertion,
          ErrRequestTimeout, ErrUpstreamHealthCheckFailed] →
      (∀ n : Int, Atoi e.Error = some n → StatusText n ≠ "" → codeFrom e = n) ∧
      ((∀ n : Int, Atoi e.Error = some n → StatusText n = "") → codeFrom e = 500)) := by
  refine ⟨by decide, by decide, by decide, by decide, by decide, by decide, by decide,
    by decide, by decide, by decide, by decide, by decide, ?_⟩
  intro hne
  have hdef : codeFrom e =
      if ValidHTTPStatusCode e.Error ≠ "" then (Atoi e.Error).getD 0
      else StatusInternalServerError := by
    cases e with
    | sentinel s => cases s <;> first | rfl | (exact absurd hne (by decide))
    | new text => rfl
    | net text timeout => rfl
    | wrap cause message => rfl
  constructor
  · intro n hn ht
    rw [hdef]
    simp [ValidHTTPStatusCode, hn, ht]
  · intro hall
    rw [hdef]
    cases hn : Atoi e.Error with
    | none => simp [ValidHTTPStatusCode, hn, StatusInternalServerError]
    | some n => simp [ValidHTTPStatusCode, hn, hall n hn, StatusInternalServerError]

/-- Instance of C7: a fresh error whose text is "404", and one whose text is
"299", a number without status text. -/
theorem codeFrom_table_witness :
    codeFrom (.new "404") = 404 ∧ codeFrom (.new "299") = 500 :=
  ⟨((codeFrom_table (.new "404")).2.2.2.2.2.2.2.2.2.2.2.2 (by decide)).1 404 (by decide)
      (by decide),
   ((codeFrom_table (.new "299")).2.2.2.2.2.2.2.2.2.2.2.2 (by decide)).2
      (by
        intro n hn
        have h299 : Atoi (GoError.new "299").Error = some 299 := by decide
        rw [h299] at hn
        cases hn
        decide)⟩

/-! ### Response encoding -/

/-- Reading a key after an assignment. -/
theorem mapGet_mapSet (m : JMap) (key key1 : String) (v : JVal) :
    mapGet (mapSet m key v) key1 = if key1 = key then some v else mapGet m key1 := by
  unfold mapGet mapSet
  by_cases h : key1 = key
  · subst h
    simp [List.lookup]
  · have hb : (key1 == key) = false := by simpa using h
    simp only [List.lookup, hb, h, if_false]
    induction m with
    | nil => simp
    | cons entry rest ih =>
      obtain ⟨k, w⟩ := entry
      by_cases hk : k = key
      · subst hk
        simp [List.filter, List.lookup, hb, ih]
      · have hkb : (k != key) = true := by simpa using hk
        simp only [List.filter, hkb, List.lookup]
        cases hkk : (key1 == k) with
        | true => rfl
        | false => exact ih

/-- The status text the encoder derives the status code from. -/
theorem encode_code (r : ReceiveAndForwardResponse) :
    (encodeReceiveAndForwardResponse (.receiveAndForward r)).Code
      = codeFrom
          (if r.Status > 0 then GoError.new (Itoa r.Status)
           else
             match r.ErrorDescription with
             | some err => err
             | none => ErrInternalServerError) := by
  simp only [encodeReceiveAndForwardResponse]

/-- C8: the status code written for a response is codeFrom of an error whose
text is the decimal form of its Status when Status is positive, otherwise of
its ErrorDescription when set, otherwise of ErrInternalServerError (500); so
a positive Status decides whatever the ErrorDescription is, and the Error
field has no influence. -/
theorem encode_status_code (r : ReceiveAndForwardResponse) (n : Int) (d : Option GoError) :
    (encodeReceiveAndForwardResponse (.receiveAndForward r)).Code
      = codeFrom
          (if r.Status > 0 then GoError.new (Itoa r.Status)
           else
             match r.ErrorDescription with
             | some err => err
             | none => ErrInternalServerError) ∧
    codeFrom ErrInternalServerError = 500 ∧
    (r.Status > 0 →
      (encodeReceiveAndForwardResponse (.receiveAndForward { r with ErrorDescription := d })).Code
        = codeFrom (GoError.new (Itoa r.Status))) ∧
    (encodeReceiveAndForwardResponse (.receiveAndForward { r with Error := n })).Code
      = (encodeReceiveAndForwardResponse (.receiveAndForward r)).Code := by
  refine ⟨encode_code r, by decide, ?_, ?_⟩
  · intro h
    rw [encode_code]
    simp [h]
  · rw [encode_code, encode_code]

/-- Instance of C8: a response with Status 404, an ErrorDescription that alone
would give 415, and a non-zero Error field is written with status code 404. -/
theorem encode_status_code_witness :
    (encodeReceiveAndForwardResponse
      (.receiveAndForward
        { Status := 404, Error := 7, ErrorDescription := some ErrInvalidContentType })).Code
      = codeFrom (GoError.new (Itoa 404)) :=
  (encode_status_code { Status := 404, Error := 7 } 0 (some ErrInvalidContentType)).2.2.1
    (by decide)

/-- Every key of the object written for a response. -/
theorem encode_get (r : ReceiveAndForwardResponse) (key : String) :
    mapGet (encodeReceiveAndForwardResponse (.receiveAndForward r)).Body key
      = if key = "message" then
          (match r.Message with
           | some m =>
             if (compact m).isSome then some (.raw m)
             else some (.str (StatusText (encodeReceiveAndForwardResponse (.receiveAndForward r)).Code))
           | none =>
             some (.str (StatusText (encodeReceiveAndForwardResponse (.receiveAndForward r)).Code)))
        else if key = "status" then
          some (.int (encodeReceiveAndForwardResponse (.receiveAndForward r)).Code)
        else if key = "error" then (if r.Error ≠ 0 then some (.int r.Error) else none)
        else if key = "reason" then (if r.Reason ≠ "" then some (.str r.Reason) else none)
        else none := by
  obtain ⟨st, msg, reason, error, desc⟩ := r
  have hnil : ∀ k : String, mapGet [] k = none := fun _ => rfl
  cases msg with
  | none =>
    by_cases hr : reason = "" <;> by_cases he : error = 0 <;>
      simp [encodeReceiveAndForwardResponse, mapGet_mapSet, hnil, hr, he] <;>
      try (split_ifs <;> simp_all)
  | some m =>
    by_cases hv : (compact m).isSome = true <;> by_cases hr : reason = "" <;>
      by_cases he : error = 0 <;>
      simp [encodeReceiveAndForwardResponse, mapGet_mapSet, hnil, hr, he, hv, jsonMarshalRaw] <;>
      try (split_ifs <;> simp_all)

/-- C9 (as stated, refuted): a response that carries a message which is not
well-formed JSON is written with the status text as message, not with the
message it carries. -/
theorem encode_message_not_json :
    ({ Status := 200, Message := some "not json" } : ReceiveAndForwardResponse).Message
      = some "not json" ∧
    mapGet (encodeReceiveAndForwardResponse
        (.receiveAndForward { Status := 200, Message := some "not json" })).Body "message"
      = some (.str "OK") ∧
    mapGet (encodeReceiveAndForwardResponse
        (.receiveAndForward { Status := 200, Message := some "not json" })).Body "message"
      ≠ some (.raw "not json") := by
  decide

/-- C9 (amended): the JSON object written for a response has key status, equal
to the status code written; key message, equal to the message of the response
when it carries one that is well-formed JSON, and to the status text of the
written code when it carries none or one that is not well-formed JSON; key
reason exactly when Reason is non-empty, then equal to it; key error exactly
when Error is non-zero, then equal to it; and no other key. A response with
status 200 whose message is the object with member ok set to true is written
as HTTP 200 with exactly that status and that message. -/
theorem encode_body (r : ReceiveAndForwardResponse) (key : String) :
    mapGet (encodeReceiveAndForwardResponse (.receiveAndForward r)).Body "status"
      = some (.int (encodeReceiveAndForwardResponse (.receiveAndForward r)).Code) ∧
    mapGet (encodeReceiveAndForwardResponse (.receiveAndForward r)).Body "message"
      = (match r.Message with
         | some m =>
           if (compact m).isSome then some (.raw m)
           else some (.str (StatusText (encodeReceiveAndForwardResponse (.receiveAndForward r)).Code))
         | none =>
           some (.str (StatusText (encodeReceiveAndForwardResponse (.receiveAndForward r)).Code))) ∧
    mapGet (encodeReceiveAndForwardResponse (.receiveAndForward r)).Body "reason"
      = (if r.Reason ≠ "" then some (.str r.Reason) else none) ∧
    mapGet (encodeReceiveAndForwardResponse (.receiveAndForward r)).Body "error"
      = (if r.Error ≠ 0 then some (.int r.Error) else none) ∧
    (key ∉ ["status", "message", "reason", "error"] →
      mapGet (encodeReceiveAndForwardResponse (.receiveAndForward r)).Body key = none) ∧
    encodeReceiveAndForwardResponse
        (.receiveAndForward { Status := 200, Message := some "\x7b\"ok\":true\x7d" })
      = ⟨200, "application/json; charset=utf-8",
          [("status", .int 200), ("message", .raw "\x7b\"ok\":true\x7d")]⟩ := by
  refine ⟨?_, ?_, ?_, ?_, ?_, by decide⟩
  · rw [encode_get]; simp
  · rw [encode_get]; simp
  · rw [encode_get]; simp
  · rw [encode_get]; simp
  · intro hk
    rw [encode_get]
    simp at hk
    simp [hk]

/-- Instance of the amended C9: the response synthesized for a refused
connection has no key besides the four, and its message, the bare text
Bad Gateway, is not well-formed JSON. -/
theorem encode_body_witness :
    mapGet (encodeReceiveAndForwardResponse
        (.receiveAndForward (setReceiveAndForwardResponse 502 "Connection Refused"))).Body
      "ErrorDescription" = none :=
  (encode_body (setReceiveAndForwardResponse 502 "Connection Refused") "ErrorDescription").2.2.2.2.1
    (by decide)

/-! ### The forwarding service -/

/-- The classifier never returns the zero value of Errorify. -/
theorem classifyRequestError_ne_zero (err : Option GoError) :
    classifyRequestError err ≠ {} := by
  intro h
  have hs : (classifyRequestError err).Status = 0 := by rw [h]
  unfold classifyRequestError at hs
  split at hs
  · split at hs
    · simp [StatusGatewayTimeout] at hs
    · split at hs
      · simp [StatusBadRequest] at hs
      · split at hs
        · simp [StatusBadGateway] at hs
        · simp [StatusInternalServerError] at hs
  · simp [StatusInternalServerError] at hs

/-- The probe when its request cannot be constructed. -/
theorem testUpstreamHealth_construct (env : Env) (upstreamServer upstreamPort : String)
    (e : GoError)
    (h : env.NewRequest "GET" (upstreamServer ++ upstreamPort ++ UpstreamHealthEndpoint) = some e) :
    testUpstreamHealth env upstreamServer upstreamPort = (classifyRequestError (some e), []) := by
  simp [testUpstreamHealth, h]

/-- The probe when the exchange fails. -/
theorem testUpstreamHealth_transport (env : Env) (upstreamServer upstreamPort : String)
    (e : GoError)
    (hn : env.NewRequest "GET" (upstreamServer ++ upstreamPort ++ UpstreamHealthEndpoint) = none)
    (hd : env.Do { Method := "GET", URL := upstreamServer ++ upstreamPort ++ UpstreamHealthEndpoint }
      = .error e) :
    testUpstreamHealth env upstreamServer upstreamPort
      = (classifyRequestError (some e),
         [{ Method := "GET", URL := upstreamServer ++ upstreamPort ++ UpstreamHealthEndpoint }]) := by
  simp [testUpstreamHealth, hn, hd]

/-- The probe when the upstream answers with a given status code. -/
theorem testUpstreamHealth_answer (env : Env) (upstreamServer upstreamPort : String)
    (r : HTTPResponse)
    (hn : env.NewRequest "GET" (upstreamServer ++ upstreamPort ++ UpstreamHealthEndpoint) = none)
    (hd : env.Do { Method := "GET", URL := upstreamServer ++ upstreamPort ++ UpstreamHealthEndpoint }
      = .ok r) :
    testUpstreamHealth env upstreamServer upstreamPort
      = (if r.StatusCode = 200 then {} else { Status := 503, Err := none },
         [{ Method := "GET", URL := upstreamServer ++ upstreamPort ++ UpstreamHealthEndpoint }]) := by
  by_cases h : r.StatusCode = 200 <;>
    simp [testUpstreamHealth, hn, hd, h, StatusOK, StatusServiceUnavailable]

/-- The service when the probe reports a failure. -/
theorem ReceiveAndForward_probe_failed (env : Env) (upstreamPort : String)
    (request : ReceiveAndForwardRequest) (inBytes : String) (err : Errorify)
    (calls : List OutboundRequest)
    (hm : jsonMarshalRaw request.Task = some inBytes)
    (hp : testUpstreamHealth env (DefaultUpstreamScheme ++ "://" ++ request.TargetURL) upstreamPort
      = (err, calls))
    (he : err ≠ {}) :
    service.ReceiveAndForward env upstreamPort request
      = ⟨calls, .returned
          (setReceiveAndForwardResponse err.Status "upstream health check failed",
           Wrap err.Err "upstream health check failed")⟩ := by
  simp [service.ReceiveAndForward, hm, hp, he, ErrUpstreamHealthCheckFailed, GoError.Error,
    Sentinel.text]

/-- C4: for every request whose task serializes (so that the probe is
attempted), if the probe request cannot be constructed, or the probe fails with
a transport error, or the probe is answered with a status other than 200, the
service executes no POST (its only upstream request, if any, is the GET probe)
and returns a response whose status is the classifier's status for the error in
the first two cases and 503 in the third; the classifier's status for a
network-layer error is 504 for a timeout, else 400 for "no such host", else 502
for "connection refused", else 500. -/
theorem probe_failure_not_forwarded (env : Env) (upstreamPort : String)
    (request : ReceiveAndForwardRequest) (inBytes : String)
    (hm : jsonMarshalRaw request.Task = some inBytes) :
    (∀ e : GoError,
      env.NewRequest "GET"
        (DefaultUpstreamScheme ++ "://" ++ request.TargetURL ++ upstreamPort
          ++ UpstreamHealthEndpoint) = some e →
      (service.ReceiveAndForward env upstreamPort request).calls = [] ∧
      ∃ resp err, (service.ReceiveAndForward env upstreamPort request).outcome
          = .returned (resp, err) ∧
        resp.Status = (classifyRequestError (some e)).Status) ∧
    (∀ e : GoError,
      env.NewRequest "GET"
        (DefaultUpstreamScheme ++ "://" ++ request.TargetURL ++ upstreamPort
          ++ UpstreamHealthEndpoint) = none →
      env.Do { Method := "GET",
               URL := DefaultUpstreamScheme ++ "://" ++ request.TargetURL ++ upstreamPort
                 ++ UpstreamHealthEndpoint } = .error e →
      (service.ReceiveAndForward env upstreamPort request).calls
        = [{ Method := "GET",
             URL := DefaultUpstreamScheme ++ "://" ++ request.TargetURL ++ upstreamPort
               ++ UpstreamHealthEndpoint }] ∧
      ∃ resp err, (service.ReceiveAndForward env upstreamPort request).outcome
          = .returned (resp, err) ∧
        resp.Status = (classifyRequestError (some e)).Status) ∧
    (∀ r : HTTPResponse,
      env.NewRequest "GET"
        (DefaultUpstreamScheme ++ "://" ++ request.TargetURL ++ upstreamPort
          ++ UpstreamHealthEndpoint) = none →
      env.Do { Method := "GET",
               URL := DefaultUpstreamScheme ++ "://" ++ request.TargetURL ++ upstreamPort
                 ++ UpstreamHealthEndpoint } = .ok r →
      r.StatusCode ≠ 200 →
      (service.ReceiveAndForward env upstreamPort request).calls
        = [{ Method := "GET",
             URL := DefaultUpstreamScheme ++ "://" ++ request.TargetURL ++ upstreamPort
               ++ UpstreamHealthEndpoint }] ∧
      ∃ resp err, (service.ReceiveAndForward env upstreamPort request).outcome
          = .returned (resp, err) ∧
        resp.Status = 503) ∧
    (∀ (text : String) (timeout : Bool),
      (classifyRequestError (some (.net text timeout))).Status
        = if timeout then 504
          else if HasSuffix text "no such host" then 400
          else if HasSuffix text "connection refused" then 502
          else 500) := by
  refine ⟨?_, ?_, ?_, ?_⟩
  · intro e hn
    rw [ReceiveAndForward_probe_failed env upstreamPort request inBytes _ _ hm
      (testUpstreamHealth_construct env _ upstreamPort e hn) (classifyRequestError_ne_zero _)]
    exact ⟨rfl, _, _, rfl, rfl⟩
  · intro e hn hd
    rw [ReceiveAndForward_probe_failed env upstreamPort request inBytes _ _ hm
      (testUpstreamHealth_transport env _ upstreamPort e hn hd) (classifyRequestError_ne_zero _)]
    exact ⟨rfl, _, _, rfl, rfl⟩
  · intro r hn hd hs
    have hp := testUpstreamHealth_answer env _ upstreamPort r hn hd
    rw [if_neg hs] at hp
    rw [ReceiveAndForward_probe_failed env upstreamPort request inBytes _ _ hm hp (by decide)]
    exact ⟨rfl, _, _, rfl, rfl⟩
  · intro text timeout
    cases timeout
    · by_cases h1 : HasSuffix text "no such host" = true
      · simp [classifyRequestError, h1, StatusBadRequest]
      · by_cases h2 : HasSuffix text "connection refused" = true
        · simp [classifyRequestError, h1, h2, StatusBadGateway]
        · simp [classifyRequestError, h1, h2, StatusInternalServerError]
    · simp [classifyRequestError, StatusGatewayTimeout]

/-- Instance of C4: the upstream refuses the connection of the probe. -/
theorem probe_failure_not_forwarded_witness :
    (service.ReceiveAndForward refusingEnv ":8443" sampleRequest).calls
      = [{ Method := "GET", URL := "https://svc.internal:8443/health" }] ∧
    ∃ resp err, (service.ReceiveAndForward refusingEnv ":8443" sampleRequest).outcome
        = .returned (resp, err) ∧
      resp.Status = (classifyRequestError
        (some (.net "dial tcp 10.0.0.1:8443: connect: connection refused" false))).Status :=
  (probe_failure_not_forwarded refusingEnv ":8443" sampleRequest "\x7b\"a\":1\x7d"
    (by decide)).2.1 (.net "dial tcp 10.0.0.1:8443: connect: connection refused" false)
    (by rfl) (by rfl)

/-- The service when the probe succeeds, the POST is answered and the body of
the answer decodes. -/
theorem ReceiveAndForward_forwarded (env : Env) (upstreamPort : String)
    (request : ReceiveAndForwardRequest) (inBytes body : String) (probe answer : HTTPResponse)
    (fields : BodyFields)
    (hm : jsonMarshalRaw request.Task = some inBytes)
    (hn : ∀ method url, env.NewRequest method url = none)
    (hg : ∀ q : OutboundRequest, q.Method = "GET" → env.Do q = .ok probe)
    (hs : probe.StatusCode = 200)
    (hp : ∀ q : OutboundRequest, q.Method = "POST" → env.Do q = .ok answer)
    (hb : answer.Body = .ok body)
    (hu : env.Unmarshal body = .ok fields) :
    (service.ReceiveAndForward env upstreamPort request).outcome
      = .returned (fields.store { Status := answer.StatusCode }, none) := by
  have hprobe := testUpstreamHealth_answer env
    (DefaultUpstreamScheme ++ "://" ++ request.TargetURL) upstreamPort probe (hn _ _) (hg _ rfl)
  rw [if_pos hs] at hprobe
  unfold service.ReceiveAndForward
  simp only [hm, hprobe, hn]
  simp only [ne_eq, not_true_eq_false, if_false]
  rw [hp _ (by unfold setHeaders; split <;> rfl)]
  simp only [hb, hu]

/-- C5 (as stated, refuted): the probe returns 200 and the forward call is
answered with HTTP status 201 and a body that has a message but no status
member. Decoded on its own the body gives a response with Status 0; the service
returns Status 201, the HTTP status code of the upstream. -/
theorem forwarded_status_taken_from_http_code :
    (BodyFields.store { message := some "\x7b\"ok\":true\x7d" } {}).Status = 0 ∧
    (service.ReceiveAndForward (healthyEnv 201 { message := some "\x7b\"ok\":true\x7d" })
        ":8443" sampleRequest).outcome
      = .returned ({ Status := 201, Message := some "\x7b\"ok\":true\x7d" }, none) ∧
    (service.ReceiveAndForward (healthyEnv 201 { message := some "\x7b\"ok\":true\x7d" })
        ":8443" sampleRequest).outcome
      ≠ .returned (BodyFields.store { message := some "\x7b\"ok\":true\x7d" } {}, none) := by
  decide

/-- C5 (amended): if the probe returns 200 and the forward call succeeds with a
body that decodes, the service returns a nil error and a response whose
message, reason, error and error description are those of the decoded body R;
its status is the one the body reports when the body has a status member, in
which case the response equals R in every field, and is the HTTP status code of
the upstream when the body has none. -/
theorem forwarded_response (env : Env) (upstreamPort : String)
    (request : ReceiveAndForwardRequest) (inBytes body : String) (probe answer : HTTPResponse)
    (fields : BodyFields)
    (hm : jsonMarshalRaw request.Task = some inBytes)
    (hn : ∀ method url, env.NewRequest method url = none)
    (hg : ∀ q : OutboundRequest, q.Method = "GET" → env.Do q = .ok probe)
    (hs : probe.StatusCode = 200)
    (hp : ∀ q : OutboundRequest, q.Method = "POST" → env.Do q = .ok answer)
    (hb : answer.Body = .ok body)
    (hu : env.Unmarshal body = .ok fields) :
    ∃ r : ReceiveAndForwardResponse,
      (service.ReceiveAndForward env upstreamPort request).outcome = .returned (r, none) ∧
      r.Message = (fields.store {}).Message ∧
      r.Reason = (fields.store {}).Reason ∧
      r.Error = (fields.store {}).Error ∧
      r.ErrorDescription = (fields.store {}).ErrorDescription ∧
      (∀ n : Int, fields.status = some n → r.Status = n ∧ r = fields.store {}) ∧
      (fields.status = none → r.Status = answer.StatusCode) := by
  refine ⟨fields.store { Status := answer.StatusCode },
    ReceiveAndForward_forwarded env upstreamPort request inBytes body probe answer fields
      hm hn hg hs hp hb hu, rfl, rfl, rfl, rfl, ?_, ?_⟩
  · intro n hst
    simp [BodyFields.store, hst]
  · intro hst
    simp [BodyFields.store, hst]

/-- Instance of the amended C5: the upstream answers the task with status code
200 and a body reporting status 200 and a message. -/
theorem forwarded_response_witness :
    ∃ r : ReceiveAndForwardResponse,
      (service.ReceiveAndForward
          (healthyEnv 200 { status := some 200, message := some "\x7b\"ok\":true\x7d" })
          ":8443" sampleRequest).outcome = .returned (r, none) ∧
      r.Message = some "\x7b\"ok\":true\x7d" ∧ r.Status = 200 := by
  obtain ⟨r, h, hmsg, _, _, _, hst, _⟩ :=
    forwarded_response
      (healthyEnv 200 { status := some 200, message := some "\x7b\"ok\":true\x7d" })
      ":8443" sampleRequest "\x7b\"a\":1\x7d" "body"
      { StatusCode := 200, Body := .ok "" } { StatusCode := 200, Body := .ok "body" }
      { status := some 200, message := some "\x7b\"ok\":true\x7d" }
      (by decide) (fun _ _ => rfl)
      (fun q hq => by simp [healthyEnv, hq])
      rfl
      (fun q hq => by simp [healthyEnv, hq])
      rfl rfl
  exact ⟨r, h, hmsg, (hst 200 rfl).1⟩

/-- The classifier keeps the error it is given. -/
theorem classifyRequestError_err (err : Option GoError) :
    (classifyRequestError err).Err = err := by
  unfold classifyRequestError
  split
  · split
    · rfl
    · split
      · rfl
      · split <;> rfl
  · rfl

/-- A text ending with "connection refused" does not end with "no such host". -/
theorem not_no_such_host (text : String) (h : HasSuffix text "connection refused" = true) :
    HasSuffix text "no such host" = false := by
  unfold HasSuffix at h ⊢
  rw [List.isSuffixOf_iff_suffix] at h
  cases hn : List.isSuffixOf "no such host".data text.data with
  | false => rfl
  | true =>
    rw [List.isSuffixOf_iff_suffix] at hn
    obtain ⟨t1, h1⟩ := h
    obtain ⟨t2, h2⟩ := hn
    have hl := congrArg List.getLast? (h1.trans h2.symm)
    have e1 : (t1 ++ "connection refused".data).getLast? = some 'd' := by
      rw [List.getLast?_append]
      rfl
    have e2 : (t2 ++ "no such host".data).getLast? = some 't' := by
      rw [List.getLast?_append]
      rfl
    rw [e1, e2] at hl
    exact absurd hl (by decide)

/-- The classifier on a refused connection that is not a timeout. -/
theorem classifyRequestError_refused (text : String)
    (h : HasSuffix text "connection refused" = true) :
    classifyRequestError (some (.net text false))
      = { Status := 502, Err := some (.net text false), Message := "Connection Refused" } := by
  simp [classifyRequestError, h, not_no_such_host text h, StatusBadGateway]

/-- The service when the probe succeeds and the POST fails with an error. -/
theorem ReceiveAndForward_forward_failed (env : Env) (upstreamPort : String)
    (request : ReceiveAndForwardRequest) (inBytes : String) (probe : HTTPResponse) (e : GoError)
    (hm : jsonMarshalRaw request.Task = some inBytes)
    (hn : ∀ method url, env.NewRequest method url = none)
    (hg : ∀ q : OutboundRequest, q.Method = "GET" → env.Do q = .ok probe)
    (hs : probe.StatusCode = 200)
    (hp : ∀ q : OutboundRequest, q.Method = "POST" → env.Do q = .error e) :
    (service.ReceiveAndForward env upstreamPort request).outcome
      = .returned
          (setReceiveAndForwardResponse (classifyRequestError (some e)).Status
            (if (classifyRequestError (some e)).Message ≠ "" then
              (classifyRequestError (some e)).Message
             else e.Error),
           some e) := by
  have hprobe := testUpstreamHealth_answer env
    (DefaultUpstreamScheme ++ "://" ++ request.TargetURL) upstreamPort probe (hn _ _) (hg _ rfl)
  rw [if_pos hs] at hprobe
  unfold service.ReceiveAndForward
  simp only [hm, hprobe, hn]
  simp only [ne_eq, not_true_eq_false, if_false]
  rw [hp _ (by unfold setHeaders; split <;> rfl)]
  simp only [classifyRequestError_err]

/-- The /task handler on a request that passes validation: the response of
the service is encoded whatever error accompanies it, and a panic of the
service is answered by encoding the nil response. -/
theorem handler_of_service (env : Env) (upstreamPort ProxyVersion : String)
    (req : ReceiveAndForwardRequest)
    (hc : req.ContentType = "application/json") (ht : req.TargetURL ≠ "") :
    receiveAndForwardHandler env upstreamPort ProxyVersion req
      = ⟨(service.ReceiveAndForward env upstreamPort req).calls,
          match (service.ReceiveAndForward env upstreamPort req).outcome with
          | .returned (output, _) =>
            .returned (encodeReceiveAndForwardResponse (.receiveAndForward output))
          | .panicked _ => .returned (encodeReceiveAndForwardResponse .nil)⟩ := by
  simp only [receiveAndForwardHandler, gatewayEndpoints, MakeEndpointMiddlewares, serve,
    EndpointLoggingMiddleware, validation_pass _ req hc ht, MakeProxyServiceEndpoints,
    makeReceiveAndForwardEndpoint, ServiceLoggingMiddleware, loggingMiddlerware.ReceiveAndForward,
    NewService]
  cases hout : (service.ReceiveAndForward env upstreamPort req).outcome with
  | returned v =>
    obtain ⟨output, err⟩ := v
    cases err with
    | none =>
      simp [EndpointLoggingMiddleware.deferred, loggingMiddlerware.deferredReceiveAndForward]
    | some e =>
      by_cases hS : output.Status ≠ 0 ∧ output.Status ≠ StatusOK <;>
        simp [EndpointLoggingMiddleware.deferred, loggingMiddlerware.deferredReceiveAndForward, hS]
  | panicked v => simp [EndpointLoggingMiddleware.deferred]

/-- C6 (as stated, refuted): every connection to the upstream is refused and
the task request is valid. The gateway answers with HTTP 502, but the reason
is "upstream health check failed", which does not contain "Connection
Refused": the refusal is met by the health probe. -/
theorem refused_probe_reason :
    HasSuffix "dial tcp 10.0.0.1:8443: connect: connection refused" "connection refused" = true ∧
    receiveAndForwardHandler refusingEnv ":8443" "v1" sampleRequest
      = ⟨[{ Method := "GET", URL := "https://svc.internal:8443/health" }],
         .returned ⟨502, "application/json; charset=utf-8",
           [("message", .str "Bad Gateway"), ("status", .int 502),
            ("reason", .str "upstream health check failed")]⟩⟩ ∧
    Contains "upstream health check failed" "Connection Refused" = false := by
  decide

/-- C6 (amended): for a valid task request (content type "application/json",
non-empty target, a task that serializes), when the upstream refuses the
connection with a network-layer error that reports no timeout and whose text
ends with "connection refused": if the refusal meets the health probe, the
gateway answers HTTP 502 with reason "upstream health check failed" and only
the probe was sent; if the probe is answered with 200 and the refusal meets
the forward call, the gateway answers HTTP 502 with reason "Connection
Refused". -/
theorem refused_connection_is_502 (env : Env) (upstreamPort ProxyVersion : String)
    (req : ReceiveAndForwardRequest) (inBytes text : String)
    (hc : req.ContentType = "application/json") (ht : req.TargetURL ≠ "")
    (hm : jsonMarshalRaw req.Task = some inBytes)
    (hr : HasSuffix text "connection refused" = true) :
    (env.NewRequest "GET"
        (DefaultUpstreamScheme ++ "://" ++ req.TargetURL ++ upstreamPort
          ++ UpstreamHealthEndpoint) = none →
      env.Do { Method := "GET",
               URL := DefaultUpstreamScheme ++ "://" ++ req.TargetURL ++ upstreamPort
                 ++ UpstreamHealthEndpoint } = .error (.net text false) →
      receiveAndForwardHandler env upstreamPort ProxyVersion req
        = ⟨[{ Method := "GET",
              URL := DefaultUpstreamScheme ++ "://" ++ req.TargetURL ++ upstreamPort
                ++ UpstreamHealthEndpoint }],
           .returned ⟨502, "application/json; charset=utf-8",
             [("message", .str "Bad Gateway"), ("status", .int 502),
              ("reason", .str "upstream health check failed")]⟩⟩) ∧
    (∀ probe : HTTPResponse,
      (∀ method url, env.NewRequest method url = none) →
      (∀ q : OutboundRequest, q.Method = "GET" → env.Do q = .ok probe) →
      probe.StatusCode = 200 →
      (∀ q : OutboundRequest, q.Method = "POST" → env.Do q = .error (.net text false)) →
      (receiveAndForwardHandler env upstreamPort ProxyVersion req).outcome
        = .returned ⟨502, "application/json; charset=utf-8",
            [("message", .str "Bad Gateway"), ("status", .int 502),
             ("reason", .str "Connection Refused")]⟩) := by
  constructor
  · intro hn hd
    have hp := testUpstreamHealth_transport env (DefaultUpstreamScheme ++ "://" ++ req.TargetURL)
      upstreamPort _ hn hd
    have hrun := ReceiveAndForward_probe_failed env upstreamPort req inBytes _ _ hm hp
      (classifyRequestError_ne_zero _)
    have henc : encodeReceiveAndForwardResponse
        (.receiveAndForward (setReceiveAndForwardResponse 502 "upstream health check failed"))
        = ⟨502, "application/json; charset=utf-8",
            [("message", .str "Bad Gateway"), ("status", .int 502),
             ("reason", .str "upstream health check failed")]⟩ := by decide
    rw [handler_of_service env upstreamPort ProxyVersion req hc ht, hrun,
      classifyRequestError_refused text hr]
    simp only [henc]
  · intro probe hn hg hs hp
    have hrun := ReceiveAndForward_forward_failed env upstreamPort req inBytes probe _ hm hn hg hs hp
    rw [handler_of_service env upstreamPort ProxyVersion req hc ht]
    have henc : encodeReceiveAndForwardResponse
        (.receiveAndForward (setReceiveAndForwardResponse 502 "Connection Refused"))
        = ⟨502, "application/json; charset=utf-8",
            [("message", .str "Bad Gateway"), ("status", .int 502),
             ("reason", .str "Connection Refused")]⟩ := by decide
    have hne : ("Connection Refused" : String) ≠ "" := by decide
    simp only [hrun, classifyRequestError_refused text hr, if_pos hne, henc]

/-- Instance of the amended C6: the probe is answered with 200 and the forward
call is refused. -/
theorem refused_connection_is_502_witness :
    (receiveAndForwardHandler refusingTaskEnv ":8443" "v1" sampleRequest).outcome
      = .returned ⟨502, "application/json; charset=utf-8",
          [("message", .str "Bad Gateway"), ("status", .int 502),
           ("reason", .str "Connection Refused")]⟩ :=
  (refused_connection_is_502 refusingTaskEnv ":8443" "v1" sampleRequest "\x7b\"a\":1\x7d"
    "dial tcp 10.0.0.1:8443: connect: connection refused"
    (by decide) (by decide) (by decide) (by decide)).2
    { StatusCode := 200, Body := .ok "" }
    (fun _ _ => rfl)
    (fun q hq => by simp [refusingTaskEnv, hq])
    rfl
    (fun q hq => by simp [refusingTaskEnv, hq])

/-! ### The logging stages -/

/-- C10 (as stated, refuted): a wrapped operation returns a response with a
non-nil error. The endpoint logging stage returns nil instead of that error,
and the service logging stage of ReceiveAndForward returns a new error whose
text is the status of the response. -/
theorem logging_replaces_error :
    EndpointLoggingMiddleware
        (fun _ => ⟨[], .returned (.receiveAndForward { Status := 502 },
          some ErrUpstreamHealthCheckFailed)⟩)
        (.receiveAndForward sampleRequest)
      = ⟨[], .returned (.receiveAndForward { Status := 502 }, none)⟩ ∧
    loggingMiddlerware.ReceiveAndForward
        { ReceiveAndForward := fun _ =>
            ⟨[], .returned ({ Status := 502 }, some ErrUpstreamHealthCheckFailed)⟩
          HealthCheck := service.HealthCheck
          Version := service.Version "v1" }
        sampleRequest
      = ⟨[], .returned ({ Status := 502 }, some (.new "502"))⟩ ∧
    some (GoError.new "502") ≠ some ErrUpstreamHealthCheckFailed := by
  decide

/-- C10 (amended): for every wrapped operation that returns a response and an
error without panicking, each logging stage returns that same response and
records no upstream request of its own. The error is returned unchanged when
it is nil, and in every case by the service logging stage of HealthCheck and of
Version. A non-nil error is replaced by nil at the endpoint logging stage; at
the service logging stage of ReceiveAndForward it is replaced by a new error
whose text is the decimal status of the response when that status is neither
0 nor 200, and by ErrInternalServerError otherwise. -/
theorem logging_outcomes (next : Endpoint) (svc : Service) (request : Request)
    (req : ReceiveAndForwardRequest) (calls : List OutboundRequest) :
    (∀ (output : Response) (err : Option GoError),
      next request = ⟨calls, .returned (output, err)⟩ →
      EndpointLoggingMiddleware next request = ⟨calls, .returned (output, none)⟩) ∧
    (∀ (output : ReceiveAndForwardResponse) (err : Option GoError),
      svc.ReceiveAndForward req = ⟨calls, .returned (output, err)⟩ →
      loggingMiddlerware.ReceiveAndForward svc req
        = ⟨calls, .returned (output,
            match err with
            | none => none
            | some _ =>
              if output.Status ≠ 0 ∧ output.Status ≠ 200 then
                some (GoError.new (Itoa output.Status))
              else some ErrInternalServerError)⟩) ∧
    (∀ (output : HealthCheckResponse) (err : Option GoError),
      svc.HealthCheck = ⟨calls, .returned (output, err)⟩ →
      loggingMiddlerware.HealthCheck svc = ⟨calls, .returned (output, err)⟩) ∧
    (∀ (output : VersionResponse) (err : Option GoError),
      svc.Version = ⟨calls, .returned (output, err)⟩ →
      loggingMiddlerware.Version svc = ⟨calls, .returned (output, err)⟩) := by
  refine ⟨?_, ?_, ?_, ?_⟩
  · intro output err h
    cases err <;> simp [EndpointLoggingMiddleware, h, EndpointLoggingMiddleware.deferred]
  · intro output err h
    cases err with
    | none =>
      simp [loggingMiddlerware.ReceiveAndForward, h,
        loggingMiddlerware.deferredReceiveAndForward]
    | some e =>
      simp [loggingMiddlerware.ReceiveAndForward, h,
        loggingMiddlerware.deferredReceiveAndForward, StatusOK]
  · intro output err h
    simp [loggingMiddlerware.HealthCheck, h]
  · intro output err h
    simp [loggingMiddlerware.Version, h]

/-- Instance of the amended C10: the health check of the service, which returns
a nil error, passes both logging stages unchanged. -/
theorem logging_outcomes_witness :
    EndpointLoggingMiddleware
        (makeHealthCheckEndpoint (ServiceLoggingMiddleware (NewService refusingEnv ":8443" "v1")))
        .healthCheck
      = ⟨[], .returned (.healthCheck { Status := "OK" }, none)⟩ ∧
    loggingMiddlerware.HealthCheck (NewService refusingEnv ":8443" "v1")
      = ⟨[], .returned ({ Status := "OK" }, none)⟩ :=
  ⟨(logging_outcomes
      (makeHealthCheckEndpoint (ServiceLoggingMiddleware (NewService refusingEnv ":8443" "v1")))
      (NewService refusingEnv ":8443" "v1") .healthCheck sampleRequest []).1
      (.healthCheck { Status := "OK" }) none rfl,
   (logging_outcomes
      (makeHealthCheckEndpoint (ServiceLoggingMiddleware (NewService refusingEnv ":8443" "v1")))
      (NewService refusingEnv ":8443" "v1") .healthCheck sampleRequest []).2.2.1
      { Status := "OK" } none rfl⟩

/-! ### Panics -/

/-- C11: when the wrapped operation panics, the endpoint logging stage
recovers the panic and returns the nil response with a nil error; the task
encoder then writes HTTP 500 with the message Internal Server Error, while the
generic encoder of /health and /version writes HTTP 200 with the body null. -/
theorem panic_recovered_generic_is_200 (next : Endpoint) (request : Request)
    (calls : List OutboundRequest) (v : String)
    (h : next request = ⟨calls, .panicked v⟩) :
    EndpointLoggingMiddleware next request = ⟨calls, .returned (.nil, none)⟩ ∧
    serve (EndpointLoggingMiddleware next) encodeReceiveAndForwardResponse request
      = ⟨calls, .returned ⟨500, "application/json; charset=utf-8",
          [("message", .str "Internal Server Error"), ("status", .int 500)]⟩⟩ ∧
    serveGeneric (EndpointLoggingMiddleware next) request
      = ⟨calls, .returned ⟨200, "application/json; charset=utf-8", .null⟩⟩ := by
  have hlog : EndpointLoggingMiddleware next request = ⟨calls, .returned (.nil, none)⟩ := by
    simp [EndpointLoggingMiddleware, h, EndpointLoggingMiddleware.deferred]
  have htask : encodeReceiveAndForwardResponse .nil
      = ⟨500, "application/json; charset=utf-8",
          [("message", .str "Internal Server Error"), ("status", .int 500)]⟩ := by decide
  have hgen : encodeGenericResponse .nil
      = ⟨200, "application/json; charset=utf-8", .null⟩ := by decide
  refine ⟨hlog, ?_, ?_⟩
  · simp only [serve, hlog, htask]
  · simp only [serveGeneric, hlog, hgen]

/-- Instance of C11: the handlers of /health, /version and /task over a service
whose operations panic. -/
theorem panic_recovered_generic_is_200_witness :
    healthCheckHandler
        (MakeEndpointMiddlewares
          (MakeProxyServiceEndpoints (ServiceLoggingMiddleware panickingService)))
      = ⟨[], .returned ⟨200, "application/json; charset=utf-8", .null⟩⟩ ∧
    versionHandler
        (MakeEndpointMiddlewares
          (MakeProxyServiceEndpoints (ServiceLoggingMiddleware panickingService)))
      = ⟨[], .returned ⟨200, "application/json; charset=utf-8", .null⟩⟩ ∧
    taskHandler
        (MakeEndpointMiddlewares
          (MakeProxyServiceEndpoints (ServiceLoggingMiddleware panickingService)))
        sampleInbound
      = ⟨[], .returned ⟨500, "application/json; charset=utf-8",
          [("message", .str "Internal Server Error"), ("status", .int 500)]⟩⟩ :=
  ⟨(panic_recovered_generic_is_200
      (makeHealthCheckEndpoint (ServiceLoggingMiddleware panickingService))
      .healthCheck [] "boom" rfl).2.2,
   (panic_recovered_generic_is_200
      (makeVersionEndpoint (ServiceLoggingMiddleware panickingService))
      .version [] "boom" rfl).2.2,
   (panic_recovered_generic_is_200
      (EndpointRequestValidationMiddleware
        (makeReceiveAndForwardEndpoint (ServiceLoggingMiddleware panickingService)))
      (.receiveAndForward
        { ContentType := "application/json", RequestID := "r-1",
          XForwardedFor := "203.0.113.7,198.51.100.4",
          TargetURL := "svc.internal", Task := some "\x7b\"a\":1\x7d" })
      [] "boom" (by decide)).2.1⟩

/-! ### Failures of the forward call and of the probe -/

/-- C12 (as stated, refuted): the probe is answered with 200 and the forward
call fails with an error the classifier maps to 500 with no message. The
gateway answers with status 500, and the reason is the text of that error,
not the generic internal-error text. -/
theorem forward_failure_reason_is_error_text :
    classifyRequestError (some (.net "Post \"https://svc.internal:8443/task\": EOF" false))
      = { Status := 500,
          Err := some (.net "Post \"https://svc.internal:8443/task\": EOF" false),
          Message := "" } ∧
    (receiveAndForwardHandler droppingTaskEnv ":8443" "v1" sampleRequest).outcome
      = .returned ⟨500, "application/json; charset=utf-8",
          [("message", .str "Internal Server Error"), ("status", .int 500),
           ("reason", .str "Post \"https://svc.internal:8443/task\": EOF")]⟩ ∧
    "Post \"https://svc.internal:8443/task\": EOF" ≠ ErrInternalServerError.Error := by
  decide

/-- C12 (amended): for a valid task request, when the probe is answered with
200 and the forward call fails with an error that the classifier maps to
status 500 with no message, the service returns a response with status 500
whose reason is the text of that error, and the gateway writes HTTP 500 with
status 500, message Internal Server Error, and that text as reason (no reason
when the text is empty). -/
theorem forward_failure_500 (env : Env) (upstreamPort ProxyVersion : String)
    (req : ReceiveAndForwardRequest) (inBytes : String) (probe : HTTPResponse) (e : GoError)
    (hc : req.ContentType = "application/json") (ht : req.TargetURL ≠ "")
    (hm : jsonMarshalRaw req.Task = some inBytes)
    (hn : ∀ method url, env.NewRequest method url = none)
    (hg : ∀ q : OutboundRequest, q.Method = "GET" → env.Do q = .ok probe)
    (hs : probe.StatusCode = 200)
    (hp : ∀ q : OutboundRequest, q.Method = "POST" → env.Do q = .error e)
    (hcls : classifyRequestError (some e) = { Status := 500, Err := some e, Message := "" }) :
    (service.ReceiveAndForward env upstreamPort req).outcome
      = .returned (setReceiveAndForwardResponse 500 e.Error, some e) ∧
    ∃ w : HTTPWritten,
      (receiveAndForwardHandler env upstreamPort ProxyVersion req).outcome = .returned w ∧
      w.Code = 500 ∧
      mapGet w.Body "status" = some (.int 500) ∧
      mapGet w.Body "message" = some (.str "Internal Server Error") ∧
      mapGet w.Body "reason" = (if e.Error ≠ "" then some (.str e.Error) else none) := by
  have hrun := ReceiveAndForward_forward_failed env upstreamPort req inBytes probe e hm hn hg hs hp
  rw [hcls] at hrun
  have hrun2 : (service.ReceiveAndForward env upstreamPort req).outcome
      = .returned (setReceiveAndForwardResponse 500 e.Error, some e) := by
    rw [hrun]
    simp
  have hcode : (encodeReceiveAndForwardResponse
      (.receiveAndForward (setReceiveAndForwardResponse 500 e.Error))).Code = 500 := by
    rw [encode_code]
    have h500 : codeFrom (GoError.new (Itoa 500)) = 500 := by decide
    simp [setReceiveAndForwardResponse, h500]
  refine ⟨hrun2, encodeReceiveAndForwardResponse
    (.receiveAndForward (setReceiveAndForwardResponse 500 e.Error)), ?_, hcode, ?_, ?_, ?_⟩
  · rw [handler_of_service env upstreamPort ProxyVersion req hc ht]
    simp only [hrun2]
  · rw [encode_get, hcode]
    simp
  · rw [encode_get, hcode]
    have hbad : (compact (StatusText 500)).isSome = false := by decide
    simp [setReceiveAndForwardResponse, hbad]
    decide
  · rw [encode_get]
    simp [setReceiveAndForwardResponse]

/-- Instance of the amended C12: the task endpoint of the upstream closes the
connection. -/
theorem forward_failure_500_witness :
    (service.ReceiveAndForward droppingTaskEnv ":8443" sampleRequest).outcome
      = .returned
          (setReceiveAndForwardResponse 500 "Post \"https://svc.internal:8443/task\": EOF",
           some (.net "Post \"https://svc.internal:8443/task\": EOF" false)) :=
  (forward_failure_500 droppingTaskEnv ":8443" "v1" sampleRequest "\x7b\"a\":1\x7d"
    { StatusCode := 200, Body := .ok "" }
    (.net "Post \"https://svc.internal:8443/task\": EOF" false)
    (by decide) (by decide) (by decide)
    (fun _ _ => rfl)
    (fun q hq => by simp [droppingTaskEnv, hq])
    rfl
    (fun q hq => by simp [droppingTaskEnv, hq])
    (by decide)).1

/-- C13: what the probe and the service return for each probe outcome that
is not success. When the probe request cannot be constructed or the exchange
fails with an error, the classified error carries that error and the service
returns it wrapped with "upstream health check failed". When the probe is
answered with a status other than 200, the classified error has status 503 and
no underlying error, and the service returns a nil error. -/
theorem probe_failure_errors (env : Env) (upstreamPort : String)
    (request : ReceiveAndForwardRequest) (inBytes : String)
    (hm : jsonMarshalRaw request.Task = some inBytes) :
    (∀ e : GoError,
      env.NewRequest "GET"
        (DefaultUpstreamScheme ++ "://" ++ request.TargetURL ++ upstreamPort
          ++ UpstreamHealthEndpoint) = some e →
      (testUpstreamHealth env (DefaultUpstreamScheme ++ "://" ++ request.TargetURL)
          upstreamPort).1.Err = some e ∧
      (service.ReceiveAndForward env upstreamPort request).outcome
        = .returned
            (setReceiveAndForwardResponse (classifyRequestError (some e)).Status
              "upstream health check failed",
             some (.wrap e "upstream health check failed"))) ∧
    (∀ e : GoError,
      env.NewRequest "GET"
        (DefaultUpstreamScheme ++ "://" ++ request.TargetURL ++ upstreamPort
          ++ UpstreamHealthEndpoint) = none →
      env.Do { Method := "GET",
               URL := DefaultUpstreamScheme ++ "://" ++ request.TargetURL ++ upstreamPort
                 ++ UpstreamHealthEndpoint } = .error e →
      (testUpstreamHealth env (DefaultUpstreamScheme ++ "://" ++ request.TargetURL)
          upstreamPort).1.Err = some e ∧
      (service.ReceiveAndForward env upstreamPort request).outcome
        = .returned
            (setReceiveAndForwardResponse (classifyRequestError (some e)).Status
              "upstream health check failed",
             some (.wrap e "upstream health check failed"))) ∧
    (∀ r : HTTPResponse,
      env.NewRequest "GET"
        (DefaultUpstreamScheme ++ "://" ++ request.TargetURL ++ upstreamPort
          ++ UpstreamHealthEndpoint) = none →
      env.Do { Method := "GET",
               URL := DefaultUpstreamScheme ++ "://" ++ request.TargetURL ++ upstreamPort
                 ++ UpstreamHealthEndpoint } = .ok r →
      r.StatusCode ≠ 200 →
      (testUpstreamHealth env (DefaultUpstreamScheme ++ "://" ++ request.TargetURL)
          upstreamPort).1 = { Status := 503, Err := none, Message := "" } ∧
      (service.ReceiveAndForward env upstreamPort request).outcome
        = .returned (setReceiveAndForwardResponse 503 "upstream health check failed", none)) := by
  refine ⟨?_, ?_, ?_⟩
  · intro e hn
    have hp := testUpstreamHealth_construct env _ upstreamPort e hn
    rw [ReceiveAndForward_probe_failed env upstreamPort request inBytes _ _ hm hp
      (classifyRequestError_ne_zero _), hp]
    simp [classifyRequestError_err, Wrap]
  · intro e hn hd
    have hp := testUpstreamHealth_transport env _ upstreamPort e hn hd
    rw [ReceiveAndForward_probe_failed env upstreamPort request inBytes _ _ hm hp
      (classifyRequestError_ne_zero _), hp]
    simp [classifyRequestError_err, Wrap]
  · intro r hn hd hs
    have hp := testUpstreamHealth_answer env _ upstreamPort r hn hd
    rw [if_neg hs] at hp
    rw [ReceiveAndForward_probe_failed env upstreamPort request inBytes _ _ hm hp (by decide), hp]
    simp [Wrap]

/-- Instance of C13: the health endpoint of the upstream answers 500; the
service returns status 503 with a nil error. -/
theorem probe_failure_errors_witness :
    (testUpstreamHealth unhealthyEnv "https://svc.internal" ":8443").1
      = { Status := 503, Err := none, Message := "" } ∧
    (service.ReceiveAndForward unhealthyEnv ":8443" sampleRequest).outcome
      = .returned (setReceiveAndForwardResponse 503 "upstream health check failed", none) :=
  (probe_failure_errors unhealthyEnv ":8443" sampleRequest "\x7b\"a\":1\x7d" (by decide)).2.2
    { StatusCode := 500, Body := .ok "" } rfl rfl (by decide)

/-! ### Headers -/

/-- Reading a header right after setting it. -/
theorem headerGet_headerSet (h : Header) (key value : String) :
    headerGet (headerSet h key value) key = value := by
  simp [headerGet, headerSet, List.lookup]

/-- The request id that `setHeaders` puts on the outbound request. -/
theorem setHeaders_request_id (request : ReceiveAndForwardRequest) (out : OutboundRequest) :
    headerGet (setHeaders request out).Header "x-request-id" = request.RequestID := by
  simp only [setHeaders]
  exact headerGet_headerSet _ _ _

/-- The request id that `copyHeaders` stores. -/
theorem copyHeaders_request_id (req : ReceiveAndForwardRequest) (r : InboundRequest) :
    (copyHeaders req r).RequestID = headerGet r.Header "x-request-id" := by
  unfold copyHeaders
  split <;> rfl

/-- The request id of a decoded request. -/
theorem decode_request_id (r : InboundRequest) (req : ReceiveAndForwardRequest)
    (hd : decodeReceiveAndForwardRequest r = .ok req) :
    req.RequestID = headerGet r.Header "x-request-id" := by
  unfold decodeReceiveAndForwardRequest at hd
  split at hd
  · cases hd
  · cases hd
  · simp only at hd
    split at hd
    · split at hd
      · cases hd
      · cases hd
        exact copyHeaders_request_id _ r
    · cases hd
      exact copyHeaders_request_id _ r

/-- The requests the service executes when the probe is answered with 200 and
the POST request can be constructed: the probe, then one POST carrying the
headers set by `setHeaders`. -/
theorem ReceiveAndForward_calls (env : Env) (upstreamPort : String)
    (request : ReceiveAndForwardRequest) (inBytes : String) (probe : HTTPResponse)
    (hm : jsonMarshalRaw request.Task = some inBytes)
    (hn : ∀ method url, env.NewRequest method url = none)
    (hg : ∀ q : OutboundRequest, q.Method = "GET" → env.Do q = .ok probe)
    (hs : probe.StatusCode = 200) :
    ∃ post : OutboundRequest,
      (service.ReceiveAndForward env upstreamPort request).calls
        = [{ Method := "GET",
             URL := DefaultUpstreamScheme ++ "://" ++ request.TargetURL ++ upstreamPort
               ++ UpstreamHealthEndpoint }, post] ∧
      post.Method = "POST" ∧
      post.URL = DefaultUpstreamScheme ++ "://" ++ request.TargetURL ++ upstreamPort
        ++ UpstreamSelfServiceEndpoint ∧
      post.Body = some inBytes ∧
      post.Header
        = (setHeaders request
            { Method := "POST",
              URL := DefaultUpstreamScheme ++ "://" ++ request.TargetURL ++ upstreamPort
                ++ UpstreamSelfServiceEndpoint,
              Body := some inBytes }).Header := by
  have hprobe := testUpstreamHealth_answer env
    (DefaultUpstreamScheme ++ "://" ++ request.TargetURL) upstreamPort probe (hn _ _) (hg _ rfl)
  rw [if_pos hs] at hprobe
  refine ⟨if request.IsBeta then
      { setHeaders request
          { Method := "POST",
            URL := DefaultUpstreamScheme ++ "://" ++ request.TargetURL ++ upstreamPort
              ++ UpstreamSelfServiceEndpoint,
            Body := some inBytes } with QueryAdded := [("beta", "true")] }
    else setHeaders request
          { Method := "POST",
            URL := DefaultUpstreamScheme ++ "://" ++ request.TargetURL ++ upstreamPort
              ++ UpstreamSelfServiceEndpoint,
            Body := some inBytes }, ?_, ?_, ?_, ?_, ?_⟩
  · unfold service.ReceiveAndForward
    simp only [hm, hprobe, hn]
    simp only [ne_eq, not_true_eq_false, if_false]
    split
    · simp only [classifyRequestError_err]
      rfl
    · split
      · rfl
      · split <;> rfl
  · split <;> rfl
  · split <;> rfl
  · split <;> rfl
  · split <;> rfl

/-- C14: for every inbound task request that is decoded, passes validation and
is forwarded (its task serializes, the requests can be constructed and the
probe is answered with 200), the gateway executes the probe and one POST, and
the x-request-id header of that POST equals the x-request-id header of the
inbound request; copyHeaders followed by setHeaders carries the value as it is. -/
theorem request_id_forwarded (env : Env) (upstreamPort ProxyVersion : String)
    (r : InboundRequest) (req : ReceiveAndForwardRequest) (inBytes : String)
    (probe : HTTPResponse) (req0 : ReceiveAndForwardRequest) (out : OutboundRequest)
    (hd : decodeReceiveAndForwardRequest r = .ok req)
    (hc : req.ContentType = "application/json") (ht : req.TargetURL ≠ "")
    (hm : jsonMarshalRaw req.Task = some inBytes)
    (hn : ∀ method url, env.NewRequest method url = none)
    (hg : ∀ q : OutboundRequest, q.Method = "GET" → env.Do q = .ok probe)
    (hs : probe.StatusCode = 200) :
    headerGet (setHeaders (copyHeaders req0 r) out).Header "x-request-id"
      = headerGet r.Header "x-request-id" ∧
    ∃ post : OutboundRequest,
      (taskHandler (gatewayEndpoints env upstreamPort ProxyVersion) r).calls
        = [{ Method := "GET",
             URL := DefaultUpstreamScheme ++ "://" ++ req.TargetURL ++ upstreamPort
               ++ UpstreamHealthEndpoint }, post] ∧
      post.Method = "POST" ∧
      headerGet post.Header "x-request-id" = headerGet r.Header "x-request-id" := by
  constructor
  · rw [setHeaders_request_id, copyHeaders_request_id]
  · obtain ⟨post, hcalls, hmethod, _, _, hheader⟩ :=
      ReceiveAndForward_calls env upstreamPort req inBytes probe hm hn hg hs
    refine ⟨post, ?_, hmethod, ?_⟩
    · have hh := handler_of_service env upstreamPort ProxyVersion req hc ht
      simp only [taskHandler, hd]
      simp only [receiveAndForwardHandler] at hh
      rw [hh]
      exact hcalls
    · rw [hheader, setHeaders_request_id, decode_request_id r req hd]

/-- Instance of C14: the sample inbound request with request id r-1, sent to an
upstream that answers the probe and the task. -/
theorem request_id_forwarded_witness :
    ∃ post : OutboundRequest,
      (taskHandler (gatewayEndpoints (healthyEnv 200 { status := some 200 }) ":8443" "v1")
          sampleInbound).calls
        = [{ Method := "GET", URL := "https://svc.internal:8443/health" }, post] ∧
      post.Method = "POST" ∧
      headerGet post.Header "x-request-id" = "r-1" :=
  (request_id_forwarded (healthyEnv 200 { status := some 200 }) ":8443" "v1" sampleInbound
    { ContentType := "application/json", RequestID := "r-1",
      XForwardedFor := "203.0.113.7,198.51.100.4",
      TargetURL := "svc.internal", Task := some "\x7b\"a\":1\x7d" }
    "\x7b\"a\":1\x7d" { StatusCode := 200, Body := .ok "" } {} { Method := "POST", URL := "" }
    (by rfl) (by decide) (by decide) (by decide)
    (fun _ _ => rfl)
    (fun q hq => by simp [healthyEnv, hq])
    rfl).2

/-- No occurrence, no first position. -/
theorem indexByte_of_not_mem (l : List Char) (c : Char) (h : c ∉ l) :
    indexByte l c = none := by
  induction l with
  | nil => rfl
  | cons x xs ih =>
    have hx : x ≠ c := fun e => h (by simp [e])
    have hxs : c ∉ xs := fun m => h (by simp [m])
    simp [indexByte, hx, ih hxs]

/-- No occurrence, no last position. -/
theorem lastIndexByte_of_not_mem (l : List Char) (c : Char) (h : c ∉ l) :
    lastIndexByte l c = none := by
  induction l with
  | nil => rfl
  | cons x xs ih =>
    have hx : x ≠ c := fun e => h (by simp [e])
    have hxs : c ∉ xs := fun m => h (by simp [m])
    simp [lastIndexByte, hx, ih hxs]

/-- The last occurrence of a separator that does not occur after it. -/
theorem lastIndexByte_append (l p : List Char) (c : Char) (h : c ∉ p) :
    lastIndexByte (l ++ c :: p) c = some l.length := by
  induction l with
  | nil => simp [lastIndexByte, lastIndexByte_of_not_mem p c h]
  | cons x xs ih => simp [lastIndexByte, ih]

/-- `SplitHostPort` on host:port, for a host and a port free of colons and
brackets: the host part is the text before the colon. -/
theorem SplitHostPort_join (host port : String)
    (hh : ∀ c ∈ host.data, c ≠ ':' ∧ c ≠ '[' ∧ c ≠ ']')
    (hp : ∀ c ∈ port.data, c ≠ ':' ∧ c ≠ '[' ∧ c ≠ ']') :
    SplitHostPort (host ++ ":" ++ port) = some (host, port) := by
  have hdata : (host ++ ":" ++ port).data = host.data ++ ':' :: port.data := by
    simp [String.data_append]
  have hcp : ':' ∉ port.data := fun m => (hp _ m).1 rfl
  have hch : ':' ∉ host.data := fun m => (hh _ m).1 rfl
  have hopen : '[' ∉ host.data ++ ':' :: port.data := by
    intro m
    rcases List.mem_append.1 m with m | m
    · exact (hh _ m).2.1 rfl
    · rcases List.mem_cons.1 m with m | m
      · exact absurd m (by decide)
      · exact (hp _ m).2.1 rfl
  have hclose : ']' ∉ host.data ++ ':' :: port.data := by
    intro m
    rcases List.mem_append.1 m with m | m
    · exact (hh _ m).2.2 rfl
    · rcases List.mem_cons.1 m with m | m
      · exact absurd m (by decide)
      · exact (hp _ m).2.2 rfl
  have hhead : (host.data ++ ':' :: port.data).head? ≠ some '[' := by
    intro e
    exact hopen (List.mem_of_mem_head? e)
  have hdrop : (host.data ++ ':' :: port.data).drop (host.length + 1) = port.data := by
    rw [show host.data ++ ':' :: port.data = (host.data ++ [':']) ++ port.data by simp]
    exact List.drop_left' (by simp)
  unfold SplitHostPort
  simp only [hdata, lastIndexByte_append _ _ _ hcp, hhead, if_false]
  simp [indexByte_of_not_mem _ _ hch, indexByte_of_not_mem _ _ hopen,
    indexByte_of_not_mem _ _ hclose, hdrop]

/-- C15 (as stated, refuted): an inbound request whose remote address has no
port, with a non-empty X-Forwarded-For header. The stated value would begin
with that header value; copyHeaders leaves the client address empty. -/
theorem copyHeaders_unsplit_address :
    headerGet [("X-Forwarded-For", "203.0.113.7")] "X-Forwarded-For" = "203.0.113.7" ∧
    SplitHostPort "localhost" = none ∧
    (copyHeaders {}
      { Header := [("X-Forwarded-For", "203.0.113.7")], RemoteAddr := "localhost" }).XForwardedFor
      = "" := by
  decide

/-- C15 (amended): for every inbound request whose remote address splits into
host and port, copyHeaders sets the client address to prior, a comma and
clientIP when the inbound X-Forwarded-For value prior is non-empty, and to
clientIP alone otherwise, clientIP being the host part of the remote address;
when the remote address does not split, the client address is left as it was.
For a remote address host:port without brackets, clientIP is host. -/
theorem copyHeaders_client_address (req : ReceiveAndForwardRequest) (r : InboundRequest) :
    (∀ clientIP port : String, SplitHostPort r.RemoteAddr = some (clientIP, port) →
      (copyHeaders req r).XForwardedFor
        = if headerGet r.Header "X-Forwarded-For" ≠ "" then
            headerGet r.Header "X-Forwarded-For" ++ "," ++ clientIP
          else clientIP) ∧
    (SplitHostPort r.RemoteAddr = none →
      (copyHeaders req r).XForwardedFor = req.XForwardedFor) ∧
    (∀ host port : String,
      (∀ c ∈ host.data, c ≠ ':' ∧ c ≠ '[' ∧ c ≠ ']') →
      (∀ c ∈ port.data, c ≠ ':' ∧ c ≠ '[' ∧ c ≠ ']') →
      r.RemoteAddr = host ++ ":" ++ port →
      (copyHeaders req r).XForwardedFor
        = if headerGet r.Header "X-Forwarded-For" ≠ "" then
            headerGet r.Header "X-Forwarded-For" ++ "," ++ host
          else host) := by
  have key : ∀ clientIP port : String, SplitHostPort r.RemoteAddr = some (clientIP, port) →
      (copyHeaders req r).XForwardedFor
        = if headerGet r.Header "X-Forwarded-For" ≠ "" then
            headerGet r.Header "X-Forwarded-For" ++ "," ++ clientIP
          else clientIP := by
    intro clientIP port h
    simp only [copyHeaders, h]
  refine ⟨key, ?_, ?_⟩
  · intro h
    simp only [copyHeaders, h]
  · intro host port hh hp ha
    exact key host port (by rw [ha]; exact SplitHostPort_join host port hh hp)

/-- Instance of the amended C15: a client at 198.51.100.4 behind a proxy that
announced 203.0.113.7. -/
theorem copyHeaders_client_address_witness :
    (copyHeaders {} sampleInbound).XForwardedFor = "203.0.113.7,198.51.100.4" :=
  (copyHeaders_client_address {} sampleInbound).2.2 "198.51.100.4" "51512"
    (by decide) (by decide) (by decide)

/-! ### Validity of the written status code -/

/-- The digit character of a digit has that digit as value. -/
theorem digitValue_digitChar (d : Nat) (h : d < 10) :
    digitValue (Nat.digitChar d) = some d := by
  interval_cases d <;> decide

/-- Reading back the digits that `Nat.toDigitsCore` writes in front of `ds`. -/
theorem parseDigitsFrom_toDigitsCore (fuel : Nat) :
    ∀ (n : Nat) (ds : List Char), n < fuel →
      ∃ k : Nat, ∀ acc : Nat,
        parseDigitsFrom acc (Nat.toDigitsCore 10 fuel n ds)
          = parseDigitsFrom (acc * 10 ^ k + n) ds := by
  induction fuel with
  | zero => intro n ds h; omega
  | succ fuel ih =>
    intro n ds h
    unfold Nat.toDigitsCore
    by_cases h0 : n / 10 = 0
    · refine ⟨1, fun acc => ?_⟩
      have hn : n % 10 = n := Nat.mod_eq_of_lt (by omega)
      simp only [h0, if_true, parseDigitsFrom, digitValue_digitChar (n % 10) (Nat.mod_lt _ (by omega))]
      rw [hn]
      simp
    · obtain ⟨k, hk⟩ := ih (n / 10) (Nat.digitChar (n % 10) :: ds) (by omega)
      refine ⟨k + 1, fun acc => ?_⟩
      simp only [h0, if_false, hk, parseDigitsFrom,
        digitValue_digitChar (n % 10) (Nat.mod_lt _ (by omega))]
      congr 1
      have hdm := Nat.div_add_mod n 10
      rw [pow_succ]
      nlinarith [hdm]

/-- The decimal digits of a number are never empty. -/
theorem toDigitsCore_ne_nil (fuel n : Nat) (ds : List Char) (h : n < fuel) :
    Nat.toDigitsCore 10 fuel n ds ≠ [] := by
  induction fuel generalizing n ds with
  | zero => omega
  | succ fuel ih =>
    unfold Nat.toDigitsCore
    by_cases h0 : n / 10 = 0
    · simp [h0]
    · simp only [h0, if_false]
      exact ih _ _ (by omega)

/-- Reading back the decimal form of a natural number. -/
theorem parseDigits_toDigits (n : Nat) : parseDigits (Nat.toDigits 10 n) = some n := by
  obtain ⟨k, hk⟩ := parseDigitsFrom_toDigitsCore (n + 1) n [] (by omega)
  have hne := toDigitsCore_ne_nil (n + 1) n [] (by omega)
  unfold parseDigits Nat.toDigits
  cases hd : Nat.toDigitsCore 10 (n + 1) n [] with
  | nil => exact absurd hd hne
  | cons c cs =>
    simp only
    rw [← hd, hk 0]
    simp [parseDigitsFrom]

/-- `Atoi` on a text made of digits only. -/
theorem Atoi_of_digits (s : String) (n : Nat) (h : parseDigits s.data = some n) :
    Atoi s = if (n : Int) < 2 ^ 63 then some (n : Int) else none := by
  have hm : (match s.data with
      | '-' :: rest => (true, rest)
      | '+' :: rest => (false, rest)
      | cs => (false, cs)) = (false, s.data) := by
    split
    · next rest hd =>
      rw [hd] at h
      have hminus : digitValue '-' = none := by decide
      simp [parseDigits, parseDigitsFrom, hminus] at h
    · next rest hd =>
      rw [hd] at h
      have hplus : digitValue '+' = none := by decide
      simp [parseDigits, parseDigitsFrom, hplus] at h
    · rfl
  have hnn : -(2 ^ 63 : Int) ≤ (n : Int) := by
    have : (0 : Int) ≤ (n : Int) := Int.ofNat_nonneg n
    omega
  unfold Atoi
  simp only [hm, h]
  simp only [Bool.false_eq_true, if_false]
  by_cases hlt : (n : Int) < 2 ^ 63
  · rw [if_pos ⟨hnn, hlt⟩, if_pos hlt]
  · rw [if_neg (fun hc => hlt hc.2), if_neg hlt]

/-- `Atoi` reads back what `Itoa` writes for a number that is not negative. -/
theorem Atoi_Itoa (n : Nat) :
    Atoi (Itoa (n : Int)) = if (n : Int) < 2 ^ 63 then some (n : Int) else none := by
  apply Atoi_of_digits
  exact parseDigits_toDigits n

/-- A key found by `lookup` is the key of an entry. -/
theorem lookup_mem (l : List (Int × String)) (k : Int) (v : String)
    (h : l.lookup k = some v) : (k, v) ∈ l := by
  induction l with
  | nil => simp [List.lookup] at h
  | cons entry rest ih =>
    obtain ⟨k1, v1⟩ := entry
    by_cases hk : k = k1
    · subst hk
      simp [List.lookup] at h
      simp [h]
    · have hb : (k == k1) = false := by simpa using hk
      simp only [List.lookup, hb] at h
      exact List.mem_cons_of_mem _ (ih h)

/-- Every code with a status text lies between 100 and 599. -/
theorem StatusText_range (n : Int) (h : StatusText n ≠ "") : 100 ≤ n ∧ n ≤ 599 := by
  unfold StatusText at h
  cases hl : statusTextTable.lookup n with
  | none => simp [hl] at h
  | some v =>
    have hmem := lookup_mem _ _ _ hl
    have hall : ∀ p ∈ statusTextTable, 100 ≤ p.1 ∧ p.1 ≤ 599 := by decide
    exact hall _ hmem

/-- The default branch of `codeFrom` returns a code with a status text. -/
theorem codeFrom_default_valid (text : String) :
    StatusText
      (if ValidHTTPStatusCode text ≠ "" then (Atoi text).getD 0
       else StatusInternalServerError) ≠ "" := by
  by_cases hv : ValidHTTPStatusCode text ≠ ""
  · rw [if_pos hv]
    unfold ValidHTTPStatusCode at hv
    cases ha : Atoi text with
    | none => simp [ha] at hv
    | some n =>
      simp only [ha] at hv
      simpa using hv
  · rw [if_neg hv]
    decide

/-- Every code `codeFrom` returns has a status text. -/
theorem codeFrom_valid (e : GoError) : StatusText (codeFrom e) ≠ "" := by
  cases e with
  | sentinel s => cases s <;> decide
  | new text => exact codeFrom_default_valid text
  | net text timeout => exact codeFrom_default_valid text
  | wrap cause message => exact codeFrom_default_valid _

/-- The code of an error whose text is the decimal form of a number that is
not negative: the number itself when it has a status text, 500 otherwise. -/
theorem codeFrom_Itoa (n : Nat) :
    codeFrom (.new (Itoa (n : Int)))
      = if StatusText (n : Int) ≠ "" then (n : Int) else 500 := by
  have hdef : codeFrom (.new (Itoa (n : Int)))
      = if ValidHTTPStatusCode (Itoa (n : Int)) ≠ "" then (Atoi (Itoa (n : Int))).getD 0
        else StatusInternalServerError := rfl
  rw [hdef]
  unfold ValidHTTPStatusCode
  rw [Atoi_Itoa]
  by_cases hlt : (n : Int) < 2 ^ 63
  · simp only [if_pos hlt, Option.getD_some]
    rfl
  · have hno : StatusText (n : Int) = "" := by
      by_contra hne
      have := (StatusText_range _ hne).2
      omega
    simp only [if_neg hlt, hno]
    rfl

/-- C16 (as stated, refuted): a response with Status 0, or a negative Status,
and an ErrorDescription is not turned into 500: the code is that of the
ErrorDescription, here 415. -/
theorem unknown_status_not_always_500 :
    StatusText 0 = "" ∧
    (encodeReceiveAndForwardResponse
      (.receiveAndForward { Status := 0, ErrorDescription := some ErrInvalidContentType })).Code
      = 415 ∧
    (encodeReceiveAndForwardResponse
      (.receiveAndForward { Status := -1, ErrorDescription := some ErrInvalidContentType })).Code
      = 415 := by
  decide

/-- C16 (amended): for every error, codeFrom returns a code with a non-empty
status text, between 100 and 599; so the codes written by
encodeReceiveAndForwardResponse and encodeError are valid whatever the
response is. A positive Status without status text is turned into 500 and a
positive Status with a status text is written as it is; a Status that is zero
or negative is turned into the code of the ErrorDescription when one is set,
and into 500 when none is. -/
theorem written_code_valid (e : GoError) (r : ReceiveAndForwardResponse) :
    StatusText (codeFrom e) ≠ "" ∧ 100 ≤ codeFrom e ∧ codeFrom e ≤ 599 ∧
    StatusText (encodeReceiveAndForwardResponse (.receiveAndForward r)).Code ≠ "" ∧
    StatusText (encodeError e).Code ≠ "" ∧
    (r.Status > 0 → StatusText r.Status = "" →
      (encodeReceiveAndForwardResponse (.receiveAndForward r)).Code = 500) ∧
    (r.Status > 0 → StatusText r.Status ≠ "" →
      (encodeReceiveAndForwardResponse (.receiveAndForward r)).Code = r.Status) ∧
    (r.Status ≤ 0 → r.ErrorDescription = none →
      (encodeReceiveAndForwardResponse (.receiveAndForward r)).Code = 500) ∧
    (∀ d : GoError, r.Status ≤ 0 → r.ErrorDescription = some d →
      (encodeReceiveAndForwardResponse (.receiveAndForward r)).Code = codeFrom d) := by
  have hpos : ∀ m : Int, m > 0 →
      codeFrom (.new (Itoa m)) = if StatusText m ≠ "" then m else 500 := by
    intro m hm
    obtain ⟨k, hk⟩ := Int.eq_ofNat_of_zero_le (le_of_lt hm)
    rw [hk]
    exact codeFrom_Itoa k
  refine ⟨codeFrom_valid e, (StatusText_range _ (codeFrom_valid e)).1,
    (StatusText_range _ (codeFrom_valid e)).2, ?_, codeFrom_valid e, ?_, ?_, ?_, ?_⟩
  · rw [encode_code]
    exact codeFrom_valid _
  · intro hs ht
    rw [encode_code, if_pos hs, hpos _ hs]
    simp [ht]
  · intro hs ht
    rw [encode_code, if_pos hs, hpos _ hs]
    simp [ht]
  · intro hs hd
    have hns : ¬ r.Status > 0 := by omega
    rw [encode_code, if_neg hns, hd]
    decide
  · intro d hs hd
    have hns : ¬ r.Status > 0 := by omega
    rw [encode_code, if_neg hns, hd]

/-- Instance of the amended C16: the statuses 42, 299 and 999 are written as
500, and the status 404 as 404. -/
theorem written_code_valid_witness :
    (encodeReceiveAndForwardResponse (.receiveAndForward { Status := 42 })).Code = 500 ∧
    (encodeReceiveAndForwardResponse (.receiveAndForward { Status := 299 })).Code = 500 ∧
    (encodeReceiveAndForwardResponse (.receiveAndForward { Status := 999 })).Code = 500 ∧
    (encodeReceiveAndForwardResponse (.receiveAndForward { Status := 404 })).Code = 404 ∧
    (encodeReceiveAndForwardResponse (.receiveAndForward { Status := -5 })).Code = 500 :=
  ⟨(written_code_valid ErrInternalServerError { Status := 42 }).2.2.2.2.2.1
      (by decide) (by decide),
   (written_code_valid ErrInternalServerError { Status := 299 }).2.2.2.2.2.1
      (by decide) (by decide),
   (written_code_valid ErrInternalServerError { Status := 999 }).2.2.2.2.2.1
      (by decide) (by decide),
   (written_code_valid ErrInternalServerError { Status := 404 }).2.2.2.2.2.2.1
      (by decide) (by decide),
   (written_code_valid ErrInternalServerError { Status := -5 }).2.2.2.2.2.2.2.1
      (by decide) (by decide)⟩

end GoProxy
